import Mathlib

set_option linter.unusedVariables false

/-!
Shallow embedding of the NetKeiba text-extraction engine (`NetKeibaParser`)
of this repository, covering the two parser variants present in the source:

* `P10` — the layout-keyed variant (src/unnamed/part_010, class `NetKeibaParser`):
  block-based roster segmentation, sectioned odds table, header-style race info.
* `P11` — the delimiter-keyed variant (src/unnamed/part_011, class `NetKeibaParser`):
  line-based roster and odds parsing, pattern-per-field race info.

JavaScript strings are modelled as Lean `String`/`List Char` (all characters used
are in the BMP, so UTF-16 units coincide with scalar values), JS numbers as `ℚ`
for odds/weights and `Int` for integer fields, the clock (`new Date()`) as an
explicit `now` parameter, and thrown exceptions as `Except.error`.  The regular
expressions of the source are transcribed verbatim into a small regex AST and run
by a backtracking matcher with JavaScript semantics (leftmost match, ordered
alternation, greedy/lazy quantifiers, `.` not matching a newline).
-/

/-! ## JavaScript string primitives -/

/-- Characters removed by JavaScript `String.prototype.trim` (the ones that can
occur in this repository's inputs). -/
def jsWhitespace (c : Char) : Bool :=
  c = ' ' || c = '\t' || c = '\n' || c = '\r' || c = '\x0b' || c = '\x0c' ||
  c = ' ' || c = '　' || c = '﻿'

/-- JavaScript `s.trim()`. -/
def trimJS (s : String) : String :=
  String.mk (((s.data.dropWhile jsWhitespace).reverse.dropWhile jsWhitespace).reverse)

/-- Helper for `splitLines`: split at newlines, `cur` being the reversed
characters of the current piece. -/
def splitLinesAux (cur : List Char) : List Char → List String
  | [] => [String.mk cur.reverse]
  | c :: rest =>
    if c = '\n' then String.mk cur.reverse :: splitLinesAux [] rest
    else splitLinesAux (c :: cur) rest

/-- JavaScript `text.split('\n')` (`""` splits to `[""]`, a trailing newline
yields a trailing empty piece, exactly as in JavaScript). -/
def splitLines (s : String) : List String :=
  splitLinesAux [] s.data

/-- Helper for `containsSub`: does `sub` occur at some position of `s`? -/
def containsSubAux (sub : List Char) : List Char → Bool
  | [] => sub.isPrefixOf []
  | c :: rest => sub.isPrefixOf (c :: rest) || containsSubAux sub rest

/-- JavaScript `s.includes(sub)`. -/
def containsSub (s sub : String) : Bool :=
  containsSubAux sub.data s.data

/-- JavaScript truthiness fallback `x || d` for an optional string
(`undefined` and the empty string are falsy). -/
def jsOrS (x : Option String) (d : String) : String :=
  match x with
  | some v => if v = "" then d else v
  | none => d

/-- JavaScript truthiness fallback `x || d` for an optional number
(`undefined` and `0` are falsy). -/
def jsOrQ (x : Option ℚ) (d : ℚ) : ℚ :=
  match x with
  | some v => if v = 0 then d else v
  | none => d

/-! ## Regex AST and backtracking matcher -/

/-- Single-character classes appearing in the source's regular expressions. -/
inductive CC where
  /-- `\d` -/
  | digit
  /-- `\s` -/
  | space
  /-- `[^\s]` -/
  | notSpace
  /-- `.` without the dotAll flag: any character except a newline -/
  | dot
  /-- an explicit character list such as `[+-]` -/
  | oneOf (cs : List Char)
  /-- a bracket class given by closed ranges (singletons as `(c, c)`) -/
  | ranges (rs : List (Char × Char))
deriving DecidableEq

/-- Whether a character belongs to a class.  `\s` is JavaScript's whitespace
class restricted as in `jsWhitespace`. -/
def CC.test : CC → Char → Bool
  | .digit, c => c.isDigit
  | .space, c => jsWhitespace c
  | .notSpace, c => !jsWhitespace c
  | .dot, c => c ≠ '\n'
  | .oneOf cs, c => cs.contains c
  | .ranges rs, c => rs.any (fun r => r.1 ≤ c && c ≤ r.2)

/-- Regex AST.  Quantifiers are restricted to single-character classes, which is
all the source's patterns use; this keeps the matcher structurally terminating
while retaining exact JavaScript backtracking semantics. -/
inductive RE where
  /-- empty pattern -/
  | eps
  /-- a literal string -/
  | lit (s : String)
  /-- a single-character class -/
  | cls (c : CC)
  /-- concatenation -/
  | seq (a b : RE)
  /-- ordered alternation `a|b` -/
  | alt (a b : RE)
  /-- capturing group number `n` -/
  | grp (n : Nat) (r : RE)
  /-- `r?` (greedy) -/
  | opt (r : RE)
  /-- `c*` (greedy) -/
  | starG (c : CC)
  /-- `c+` (greedy) -/
  | plusG (c : CC)
  /-- `c{lo,hi}` (greedy) -/
  | repG (lo hi : Nat) (c : CC)
  /-- `c*?` (lazy) -/
  | starL (c : CC)
  /-- `c+?` (lazy) -/
  | plusL (c : CC)
deriving DecidableEq

/-- Captured groups: group number to captured substring; the most recent
assignment (head of the list) wins, as in JavaScript. -/
abbrev Caps := List (Nat × String)

/-- Record a capture. -/
def setCap (caps : Caps) (n : Nat) (v : String) : Caps := (n, v) :: caps

/-- Read group `n` of a match result (all groups accessed by the source are
mandatory in their pattern, so the default is never observed). -/
def capGet (caps : Caps) (n : Nat) : String :=
  match List.lookup n caps with
  | some v => v
  | none => ""

/-- Length of the maximal run of characters of class `c` at the head of `s`. -/
def runLen (c : CC) (s : List Char) : Nat := (s.takeWhile c.test).length

/-- Try continuation `k` on `s` with `j, j-1, …, lo` characters consumed
(greedy order).  Returns the first success. -/
def tryDown (k : List Char → Option Caps) (s : List Char) (lo : Nat) : Nat → Option Caps
  | 0 => if lo = 0 then k s else none
  | j + 1 =>
    if j + 1 < lo then none
    else (k (s.drop (j + 1))).orElse (fun _ => tryDown k s lo j)

/-- Try continuation `k` on `s` with `j, j+1, …` characters consumed, making at
most `fuel` attempts (lazy order). -/
def tryUp (k : List Char → Option Caps) (s : List Char) : Nat → Nat → Option Caps
  | _, 0 => none
  | j, fuel + 1 => (k (s.drop j)).orElse (fun _ => tryUp k s (j + 1) fuel)

/-- Backtracking matcher in continuation-passing style.  `k` receives the
captures so far and the remaining input; returning `none` from `k` makes the
matcher backtrack, which gives the exact JavaScript semantics for ordered
alternation and greedy/lazy quantifiers. -/
def matchRE : RE → Caps → List Char → (Caps → List Char → Option Caps) → Option Caps
  | .eps, caps, s, k => k caps s
  | .lit str, caps, s, k =>
    if str.data.isPrefixOf s then k caps (s.drop str.data.length) else none
  | .cls c, caps, s, k =>
    match s with
    | [] => none
    | ch :: rest => if c.test ch then k caps rest else none
  | .seq a b, caps, s, k => matchRE a caps s (fun caps1 s1 => matchRE b caps1 s1 k)
  | .alt a b, caps, s, k => (matchRE a caps s k).orElse (fun _ => matchRE b caps s k)
  | .grp n r, caps, s, k =>
    matchRE r caps s (fun caps1 s1 =>
      k (setCap caps1 n (String.mk (s.take (s.length - s1.length)))) s1)
  | .opt r, caps, s, k => (matchRE r caps s k).orElse (fun _ => k caps s)
  | .starG c, caps, s, k => tryDown (fun s1 => k caps s1) s 0 (runLen c s)
  | .plusG c, caps, s, k => tryDown (fun s1 => k caps s1) s 1 (runLen c s)
  | .repG lo hi c, caps, s, k => tryDown (fun s1 => k caps s1) s lo (min (runLen c s) hi)
  | .starL c, caps, s, k => tryUp (fun s1 => k caps s1) s 0 (runLen c s + 1)
  | .plusL c, caps, s, k =>
    match runLen c s with
    | 0 => none
    | n + 1 => tryUp (fun s1 => k caps s1) s 1 (n + 1)

/-- Search helper: try a match at each start position, leftmost first. -/
def reFindAux (r : RE) : List Char → Option Caps
  | [] => matchRE r [] [] (fun caps _ => some caps)
  | c :: rest =>
    (matchRE r [] (c :: rest) (fun caps _ => some caps)).orElse
      (fun _ => reFindAux r rest)

/-- JavaScript `text.match(re)` for an unanchored pattern: captures of the
leftmost match, or `none`. -/
def reFind (r : RE) (s : String) : Option Caps := reFindAux r s.data

/-- JavaScript `text.match(re)` for a `^…`-anchored pattern (no `$`). -/
def reMatchPrefix (r : RE) (s : String) : Option Caps :=
  matchRE r [] s.data (fun caps _ => some caps)

/-- JavaScript `text.match(re)` for a `^…$`-anchored pattern. -/
def reMatchFull (r : RE) (s : String) : Option Caps :=
  matchRE r [] s.data (fun caps rest => if rest = [] then some caps else none)

/-- JavaScript `re.test(text)` for an unanchored pattern. -/
def reTest (r : RE) (s : String) : Bool := (reFind r s).isSome

/-- JavaScript `re.test(text)` for a `^…`-anchored pattern. -/
def reTestPrefix (r : RE) (s : String) : Bool := (reMatchPrefix r s).isSome

/-! ## Number parsing -/

/-- Value of a digit string. -/
def digitsVal (ds : List Char) : Nat :=
  ds.foldl (fun a c => a * 10 + (c.toNat - 48)) 0

/-- JavaScript `parseInt` as applied in the source: every call site passes a
capture of an all-digit group `(\d+)` or `(\d{k})`. -/
def parseIntJS (s : String) : Int :=
  Int.ofNat (digitsVal (s.data.takeWhile Char.isDigit))

/-- JavaScript `parseFloat` as applied in the source: every call site passes a
capture matching `\d+(\.\d+)?` (or `\d+\.\d+`), whose value is an exact decimal. -/
def parseFloatJS (s : String) : ℚ :=
  let ds := s.data.takeWhile Char.isDigit
  let rest := s.data.drop ds.length
  match rest with
  | '.' :: fs =>
    let fd := fs.takeWhile Char.isDigit
    (digitsVal ds : ℚ) + (digitsVal fd : ℚ) / ((10 : ℚ) ^ fd.length)
  | _ => (digitsVal ds : ℚ)

/-! ## Data model (src/types, as used by the parsers) -/

deriving instance DecidableEq for Except

/-- JavaScript `Date` values as the parsers build them: either
`new Date(y, m, d)` (month already 0-based at the call site) or `new Date()`,
which reads the clock; the clock instant is the explicit `now` parameter that
the embedding threads through each extractor call. -/
inductive JSDate where
  | ymd (y m d : Int)
  | clock (t : Int)
deriving DecidableEq

/-- `Surface` enum. -/
inductive Surface where
  | TURF
  | DIRT
deriving DecidableEq

/-- `TrackCondition` enum. -/
inductive TrackCondition where
  | FIRM
  | GOOD
  | YIELDING
  | SOFT
deriving DecidableEq

/-- `RaceClass` enum. -/
inductive RaceClass where
  | G1
  | G2
  | G3
  | LISTED
  | OPEN
  | CLASS_3
  | CLASS_2
  | CLASS_1
  | MAIDEN
deriving DecidableEq

/-- `Gender` enum. -/
inductive Gender where
  | MALE
  | FEMALE
  | GELDING
deriving DecidableEq

/-- `ParseError` record (`@/types/parser`). -/
structure ParseError where
  type : String
  field : String
  message : String
  rawData : String
  lineNumber : Option Nat := none
deriving DecidableEq

/-- `ParseResult<T>` record: `data` is absent on the failure returns of the
source that omit it. -/
structure ParseResult (α : Type) where
  success : Bool
  data : Option α := none
  errors : List ParseError
  warnings : List String
deriving DecidableEq

/-- `RaceInfo` record. -/
structure RaceInfo where
  venue : String
  raceNumber : Int
  title : String
  distance : Int
  surface : Surface
  condition : TrackCondition
  raceClass : RaceClass
  date : JSDate
deriving DecidableEq

/-- `HorseData` record. -/
structure HorseData where
  number : Int
  name : String
  age : Int
  gender : Gender
  weight : ℚ
  jockeyName : String
  trainerName : String
deriving DecidableEq

/-- `HorseDataForm` record (the form-shaped type returned by the public
`parseHorseData`); `gender` is one of the strings "male"/"female"/"gelding". -/
structure HorseDataForm where
  number : Int
  name : String
  age : Int
  gender : String
  weight : ℚ
  jockeyName : String
  trainerName : String
  ownerName : String
deriving DecidableEq

/-- `OddsData` record. -/
structure OddsData where
  horseNumber : Int
  winOdds : ℚ
  placeOddsMin : ℚ
  placeOddsMax : ℚ
deriving DecidableEq

/-- `ParserConfig` record. -/
structure ParserConfig where
  strictMode : Bool
  skipInvalidHorses : Bool
  defaultOdds : ℚ
  maxHorses : Nat
deriving DecidableEq

/-- The defaults installed by the `NetKeibaParser` constructor. -/
def defaultConfig : ParserConfig :=
  { strictMode := false
    skipInvalidHorses := true
    defaultOdds := 99.9
    maxHorses := 18 }

/-- `ValidationError` record (`@/types/core`); the `value` payload is not
inspected by any claim and is omitted from the embedding. -/
structure ValidationError where
  field : String
  message : String
deriving DecidableEq

/-- `ValidationResult` record. -/
structure ValidationResult where
  isValid : Bool
  errors : List ValidationError
deriving DecidableEq

/-- The `unknown` argument of `validateParsedData`, restricted to the shapes the
function can distinguish: `none` models `null`/`undefined`/non-objects, and each
field is present iff the corresponding `'x' in data && typeof data.x === …`
guard passes. -/
structure ValidateInput where
  venue : Option String := none
  distance : Option ℚ := none
  raceNumber : Option ℚ := none

/-! ## Converters shared verbatim by both parser files -/

/-- `parseSurface` (identical in part_010 and part_011). -/
def parseSurface (surfaceStr : String) : Surface :=
  if surfaceStr = "芝" then Surface.TURF
  else if surfaceStr = "ダート" then Surface.DIRT
  else Surface.TURF

/-- `parseTrackCondition` (identical in part_010 and part_011). -/
def parseTrackCondition (conditionStr : String) : TrackCondition :=
  if conditionStr = "良" then TrackCondition.FIRM
  else if conditionStr = "稍重" then TrackCondition.GOOD
  else if conditionStr = "重" then TrackCondition.YIELDING
  else if conditionStr = "不良" then TrackCondition.SOFT
  else TrackCondition.FIRM

/-- `parseRaceClass` (identical in part_010 and part_011). -/
def parseRaceClass (classStr : String) : RaceClass :=
  if classStr = "G1" then RaceClass.G1
  else if classStr = "G2" then RaceClass.G2
  else if classStr = "G3" then RaceClass.G3
  else if classStr = "Listed" then RaceClass.LISTED
  else if classStr = "オープン" then RaceClass.OPEN
  else if classStr = "3勝クラス" then RaceClass.CLASS_3
  else if classStr = "2勝クラス" then RaceClass.CLASS_2
  else if classStr = "1勝クラス" then RaceClass.CLASS_1
  else if classStr = "未勝利" then RaceClass.MAIDEN
  else RaceClass.OPEN

/-- `parseGender` (identical in part_010 and part_011). -/
def parseGender (genderStr : String) : Gender :=
  if genderStr = "牡" then Gender.MALE
  else if genderStr = "牝" then Gender.FEMALE
  else if genderStr = "セ" then Gender.GELDING
  else Gender.MALE

/-- `convertGenderToString` (identical in part_010 and part_011). -/
def convertGenderToString (gender : Gender) : String :=
  match gender with
  | Gender.MALE => "male"
  | Gender.FEMALE => "female"
  | Gender.GELDING => "gelding"

/-- `validateParsedData` (identical in part_010 and part_011). -/
def validateParsedData (data : Option ValidateInput) : ValidationResult :=
  match data with
  | none =>
    { isValid := false
      errors := [{ field := "data", message := "データが無効です" }] }
  | some d =>
    let venueErrs :=
      match d.venue with
      | some v =>
        if v = "" ∨ trimJS v = "" then
          [{ field := "venue", message := "競馬場名は必須です" : ValidationError }]
        else []
      | none => []
    let distanceErrs :=
      match d.distance with
      | some x =>
        if x < 1000 ∨ 4000 < x then
          [{ field := "distance", message := "距離は1000m-4000mの範囲で入力してください" : ValidationError }]
        else []
      | none => []
    let raceNumberErrs :=
      match d.raceNumber with
      | some x =>
        if x < 1 ∨ 12 < x then
          [{ field := "raceNumber", message := "レース番号は1-12の範囲で入力してください" : ValidationError }]
        else []
      | none => []
    let errors := venueErrs ++ distanceErrs ++ raceNumberErrs
    { isValid := errors.isEmpty, errors := errors }

/-! ## Shared roster-loop machinery

Both parser files drive per-fragment extraction with the identical
`for`/`try`/`catch` loop of `parseHorseDataInternal`; only the fragment parser
and the diagnostic metadata differ.  `frag i l = none` models the `continue`
on a blank line (part_011); an `Except.error` models a thrown exception caught
by the loop's `catch`. -/

/-- Mutable state of the `parseHorseDataInternal` loop. -/
structure HState where
  horses : List HorseData
  errors : List ParseError
  warnings : List String
deriving DecidableEq

/-- One iteration of the `parseHorseDataInternal` loop. -/
def horseStep (skip : Bool) (frag : Nat → String → Option (Except String HorseData))
    (mkErr : Nat → String → String → ParseError) (i : Nat) (l : String)
    (st : HState) : HState :=
  match frag i l with
  | none => st
  | some (Except.ok h) => { st with horses := st.horses ++ [h] }
  | some (Except.error msg) =>
    let pe := mkErr i l msg
    if skip then { st with warnings := st.warnings ++ [pe.message] }
    else { st with errors := st.errors ++ [pe] }

/-- The `parseHorseDataInternal` loop. -/
def horseLoop (skip : Bool) (frag : Nat → String → Option (Except String HorseData))
    (mkErr : Nat → String → String → ParseError) :
    Nat → List String → HState → HState
  | _, [], st => st
  | i, l :: rest, st =>
    horseLoop skip frag mkErr (i + 1) rest (horseStep skip frag mkErr i l st)

/-- The fragments the loop parses successfully, in order. -/
def fragOks (frag : Nat → String → Option (Except String HorseData)) :
    Nat → List String → List HorseData
  | _, [] => []
  | i, l :: rest =>
    (match frag i l with
     | some (Except.ok h) => [h]
     | _ => []) ++ fragOks frag (i + 1) rest

/-- The `ParseError`s of the fragments whose parse throws, in order. -/
def fragErrs (frag : Nat → String → Option (Except String HorseData))
    (mkErr : Nat → String → String → ParseError) :
    Nat → List String → List ParseError
  | _, [] => []
  | i, l :: rest =>
    (match frag i l with
     | some (Except.error msg) => [mkErr i l msg]
     | _ => []) ++ fragErrs frag mkErr (i + 1) rest

/-- The warning messages of the fragments whose parse throws, in order. -/
def fragWarns (frag : Nat → String → Option (Except String HorseData))
    (mkErr : Nat → String → String → ParseError) :
    Nat → List String → List String
  | _, [] => []
  | i, l :: rest =>
    (match frag i l with
     | some (Except.error msg) => [(mkErr i l msg).message]
     | _ => []) ++ fragWarns frag mkErr (i + 1) rest

/-- The roster-level error pushed when zero horses were extracted (identical in
part_010 and part_011). -/
def generalHorseErr (text : String) : ParseError :=
  { type := "HORSE_DATA"
    field := "general"
    message := "有効な馬データが見つかりませんでした"
    rawData := text }

/-- The roster-level warning pushed when the extracted count exceeds
`maxHorses` (identical in part_010 and part_011). -/
def maxHorsesWarn (cfg : ParserConfig) : String :=
  "出走頭数が上限（" ++ toString cfg.maxHorses ++ "頭）を超えています"

/-- Lines kept by `text.split('\n').filter(line => line.trim())`. -/
def filteredLines (text : String) : List String :=
  (splitLines text).filter (fun l => !(trimJS l == ""))

/-- The `errors?.[0]?.message || 'パースに失敗しました'` thrown by the public
`parseHorseData` wrapper (identical in part_010 and part_011). -/
def horseThrowMsg (r : ParseResult (List HorseData)) : String :=
  jsOrS (r.errors.head?.map (fun e => e.message)) "パースに失敗しました"

/-- `HorseData` to `HorseDataForm` conversion done by the public
`parseHorseData` (identical in part_010 and part_011). -/
def toHorseDataForm (horse : HorseData) : HorseDataForm :=
  { number := horse.number
    name := horse.name
    age := horse.age
    gender := convertGenderToString horse.gender
    weight := horse.weight
    jockeyName := horse.jockeyName
    trainerName := horse.trainerName
    ownerName := "" }

/-! ## P11: the delimiter-keyed parser (src/unnamed/part_011) -/

namespace P11

/-- `/(東京|中山|阪神|京都|中京|新潟|福島|小倉|札幌|函館)/` -/
def venuePattern : RE :=
  .grp 1 (.alt (.lit "東京") (.alt (.lit "中山") (.alt (.lit "阪神")
    (.alt (.lit "京都") (.alt (.lit "中京") (.alt (.lit "新潟")
    (.alt (.lit "福島") (.alt (.lit "小倉") (.alt (.lit "札幌") (.lit "函館"))))))))))

/-- `/(\d+)R/` -/
def raceNumberPattern : RE := .seq (.grp 1 (.plusG .digit)) (.lit "R")

/-- `/(\d+R\s+)([^\s]+)/` -/
def titlePattern : RE :=
  .seq (.grp 1 (.seq (.plusG .digit) (.seq (.lit "R") (.plusG .space))))
    (.grp 2 (.plusG .notSpace))

/-- `/(芝|ダート)(\d+)m/` -/
def distancePattern : RE :=
  .seq (.grp 1 (.alt (.lit "芝") (.lit "ダート")))
    (.seq (.grp 2 (.plusG .digit)) (.lit "m"))

/-- `/(良|稍重|重|不良)/` -/
def conditionPattern : RE :=
  .grp 1 (.alt (.lit "良") (.alt (.lit "稍重") (.alt (.lit "重") (.lit "不良"))))

/-- `/(G[123]|Listed|オープン|3勝クラス|2勝クラス|1勝クラス|未勝利)/` -/
def classPattern : RE :=
  .grp 1 (.alt (.seq (.lit "G") (.cls (.oneOf ['1', '2', '3'])))
    (.alt (.lit "Listed") (.alt (.lit "オープン") (.alt (.lit "3勝クラス")
    (.alt (.lit "2勝クラス") (.alt (.lit "1勝クラス") (.lit "未勝利")))))))

/-- `/(\d{4})年(\d{1,2})月(\d{1,2})日/` -/
def datePattern : RE :=
  .seq (.grp 1 (.repG 4 4 .digit)) (.seq (.lit "年")
    (.seq (.grp 2 (.repG 1 2 .digit)) (.seq (.lit "月")
    (.seq (.grp 3 (.repG 1 2 .digit)) (.lit "日")))))

/-- The error pushes of part_011's `parseRaceInfo`, in source order. -/
def raceErrors (text : String)
    (venueMatch raceNumberMatch titleMatch distanceMatch dateMatch : Option Caps) :
    List ParseError :=
  (if venueMatch.isNone then
    [{ type := "RACE_INFO", field := "venue",
       message := "競馬場名が見つかりません", rawData := text }] else []) ++
  (if raceNumberMatch.isNone then
    [{ type := "RACE_INFO", field := "raceNumber",
       message := "レース番号が見つかりません", rawData := text }] else []) ++
  (if titleMatch.isNone then
    [{ type := "RACE_INFO", field := "title",
       message := "レース名が見つかりません", rawData := text }] else []) ++
  (if distanceMatch.isNone then
    [{ type := "RACE_INFO", field := "distance",
       message := "距離・コース情報が見つかりません", rawData := text }] else []) ++
  (if dateMatch.isNone then
    [{ type := "RACE_INFO", field := "date",
       message := "開催日が見つかりません", rawData := text }] else [])

/-- The warning pushes of part_011's `parseRaceInfo`, in source order. -/
def raceWarnings (conditionMatch classMatch : Option Caps) : List String :=
  (if conditionMatch.isNone then
    ["馬場状態が見つかりません。デフォルト値（良）を使用します。"] else []) ++
  (if classMatch.isNone then
    ["レースクラスが見つかりません。デフォルト値（オープン）を使用します。"] else [])

/-- Body of part_011's `parseRaceInfo`, abstracted over the seven pattern-match
results and the computed date value (each is computed once from the text and
then only read, so this is the straight-line body of the source). -/
def buildRaceInfoCore (cfg : ParserConfig) (text : String)
    (venueMatch raceNumberMatch titleMatch distanceMatch conditionMatch
      classMatch dateMatch : Option Caps) (date : JSDate) : ParseResult RaceInfo :=
  let errors : List ParseError :=
    raceErrors text venueMatch raceNumberMatch titleMatch distanceMatch dateMatch
  let warnings : List String := raceWarnings conditionMatch classMatch
  let raceInfo : RaceInfo :=
    { venue := jsOrS (venueMatch.map (fun m => capGet m 1)) "不明"
      raceNumber :=
        match raceNumberMatch with
        | some m => parseIntJS (capGet m 1)
        | none => 0
      title := jsOrS (titleMatch.map (fun m => capGet m 2)) "不明"
      distance :=
        match distanceMatch with
        | some m => parseIntJS (capGet m 2)
        | none => 0
      surface := parseSurface (jsOrS (distanceMatch.map (fun m => capGet m 1)) "芝")
      condition := parseTrackCondition (jsOrS (conditionMatch.map (fun m => capGet m 1)) "良")
      raceClass := parseRaceClass (jsOrS (classMatch.map (fun m => capGet m 1)) "オープン")
      date := date }
  if errors = [] then
    { success := true, data := some raceInfo, errors := errors, warnings := warnings }
  else if cfg.strictMode then
    { success := false, errors := errors, warnings := warnings }
  else
    let criticalErrors := errors.filter (fun e =>
      e.field == "venue" || e.field == "raceNumber" || e.field == "distance")
    if criticalErrors = [] then
      { success := true, data := some raceInfo, errors := errors, warnings := warnings }
    else
      { success := false, errors := errors, warnings := warnings }

/-- `dateMatch ? new Date(y, m-1, d) : new Date()` of part_011. -/
def dateOf (now : Int) (dateMatch : Option Caps) : JSDate :=
  match dateMatch with
  | some m =>
    JSDate.ymd (parseIntJS (capGet m 1)) (parseIntJS (capGet m 2) - 1)
      (parseIntJS (capGet m 3))
  | none => JSDate.clock now

/-- Part_011's `parseRaceInfo` body with the seven match results as inputs. -/
def buildRaceInfo (cfg : ParserConfig) (now : Int) (text : String)
    (venueMatch raceNumberMatch titleMatch distanceMatch conditionMatch
      classMatch dateMatch : Option Caps) : ParseResult RaceInfo :=
  buildRaceInfoCore cfg text venueMatch raceNumberMatch titleMatch distanceMatch
    conditionMatch classMatch dateMatch (dateOf now dateMatch)

/-- `parseRaceInfo` of part_011. -/
def parseRaceInfo (cfg : ParserConfig) (now : Int) (text : String) :
    ParseResult RaceInfo :=
  buildRaceInfo cfg now text
    (reFind venuePattern text) (reFind raceNumberPattern text)
    (reFind titlePattern text) (reFind distancePattern text)
    (reFind conditionPattern text) (reFind classPattern text)
    (reFind datePattern text)

/-- `\d+(?:\.\d+)?` -/
def decimalRE : RE := .seq (.plusG .digit) (.opt (.seq (.lit ".") (.plusG .digit)))

/-- `/^(\d+)\s+([^\s]+)\s+(牡|牝|セ)(\d+)\s+(\d+(?:\.\d+)?)\s+([^\s]+)\s+([^\s]+)/` -/
def horseLinePattern : RE :=
  .seq (.grp 1 (.plusG .digit)) (.seq (.plusG .space)
    (.seq (.grp 2 (.plusG .notSpace)) (.seq (.plusG .space)
    (.seq (.grp 3 (.alt (.lit "牡") (.alt (.lit "牝") (.lit "セ"))))
    (.seq (.grp 4 (.plusG .digit)) (.seq (.plusG .space)
    (.seq (.grp 5 decimalRE) (.seq (.plusG .space)
    (.seq (.grp 6 (.plusG .notSpace)) (.seq (.plusG .space)
    (.grp 7 (.plusG .notSpace))))))))))))

/-- `parseHorseLine` of part_011 (`throw` modelled as `Except.error`). -/
def parseHorseLine (line : String) : Except String HorseData :=
  match reMatchPrefix horseLinePattern line with
  | none => Except.error ("馬データの形式が正しくありません: " ++ line)
  | some m =>
    Except.ok
      { number := parseIntJS (capGet m 1)
        name := trimJS (capGet m 2)
        age := parseIntJS (capGet m 4)
        gender := parseGender (capGet m 3)
        weight := parseFloatJS (capGet m 5)
        jockeyName := trimJS (capGet m 6)
        trainerName := trimJS (capGet m 7) }

/-- Fragment step of part_011's roster loop: trim the line, `continue` when it
is blank (unreachable after `filteredLines`), otherwise run `parseHorseLine`. -/
def rosterFrag (i : Nat) (l : String) : Option (Except String HorseData) :=
  let line := trimJS l
  if line = "" then none else some (parseHorseLine line)

/-- The `ParseError` built in part_011's roster `catch` block. -/
def rosterMkErr (i : Nat) (l : String) (msg : String) : ParseError :=
  { type := "HORSE_DATA"
    field := "horseLine"
    message := toString (i + 1) ++ "行目の馬データパースに失敗: " ++ msg
    rawData := trimJS l
    lineNumber := some (i + 1) }

/-- `parseHorseDataInternal` of part_011. -/
def parseHorseDataInternal (cfg : ParserConfig) (text : String) :
    ParseResult (List HorseData) :=
  let lines := filteredLines text
  let st := horseLoop cfg.skipInvalidHorses rosterFrag rosterMkErr 0 lines
    { horses := [], errors := [], warnings := [] }
  let errors := st.errors ++ (if st.horses = [] then [generalHorseErr text] else [])
  let warnings := st.warnings ++
    (if cfg.maxHorses < st.horses.length then [maxHorsesWarn cfg] else [])
  { success := errors.isEmpty
    data := some st.horses
    errors := errors
    warnings := warnings }

/-- `parseHorseData` of part_011: the public roster entry point.  It rethrows
(`Except.error`) whenever the internal parse is unsuccessful. -/
def parseHorseData (cfg : ParserConfig) (text : String) :
    Except String (List HorseDataForm) :=
  let result := parseHorseDataInternal cfg text
  if result.success = false then Except.error (horseThrowMsg result)
  else
    match result.data with
    | none => Except.error (horseThrowMsg result)
    | some ds => Except.ok (ds.map toHorseDataForm)

/-- `/^(\d+)\s+(\d+(?:\.\d+)?)\s+(\d+(?:\.\d+)?)-(\d+(?:\.\d+)?)/` -/
def oddsFullPattern : RE :=
  .seq (.grp 1 (.plusG .digit)) (.seq (.plusG .space)
    (.seq (.grp 2 decimalRE) (.seq (.plusG .space)
    (.seq (.grp 3 decimalRE) (.seq (.lit "-") (.grp 4 decimalRE))))))

/-- `/^(\d+)\s+(\d+(?:\.\d+)?)/` -/
def oddsSimplePattern : RE :=
  .seq (.grp 1 (.plusG .digit)) (.seq (.plusG .space) (.grp 2 decimalRE))

/-- `parseOddsLine` (textually identical in part_010 and part_011; in part_010
it is a private method that `parseOdds` no longer calls). -/
def parseOddsLine (line : String) : Except String OddsData :=
  match reMatchPrefix oddsFullPattern line with
  | some m =>
    Except.ok
      { horseNumber := parseIntJS (capGet m 1)
        winOdds := parseFloatJS (capGet m 2)
        placeOddsMin := parseFloatJS (capGet m 3)
        placeOddsMax := parseFloatJS (capGet m 4) }
  | none =>
    match reMatchPrefix oddsSimplePattern line with
    | some m =>
      Except.ok
        { horseNumber := parseIntJS (capGet m 1)
          winOdds := parseFloatJS (capGet m 2)
          placeOddsMin := parseFloatJS (capGet m 2) / 3
          placeOddsMax := parseFloatJS (capGet m 2) / 2 }
    | none => Except.error ("オッズデータの形式が正しくありません: " ++ line)

/-- The warning message built in part_011's odds `catch` block. -/
def oddsWarnMsg (i : Nat) (msg : String) : String :=
  toString (i + 1) ++ "行目のオッズデータパースに失敗: " ++ msg

/-- The `parseOdds` loop of part_011: collected records and warnings. -/
def oddsLoop : Nat → List String → List OddsData × List String →
    List OddsData × List String
  | _, [], st => st
  | i, l :: rest, st =>
    let line := trimJS l
    let st1 :=
      if line = "" then st
      else
        match parseOddsLine line with
        | Except.ok o => (st.1 ++ [o], st.2)
        | Except.error msg => (st.1, st.2 ++ [oddsWarnMsg i msg])
    oddsLoop (i + 1) rest st1

/-- `parseOdds` of part_011. -/
def parseOdds (cfg : ParserConfig) (text : String) : ParseResult (List OddsData) :=
  let lines := filteredLines text
  let st := oddsLoop 0 lines ([], [])
  { success := true, data := some st.1, errors := [], warnings := st.2 }

/-- Successfully parsed odds lines, in order (characterization helper for the
odds loop). -/
def oddsOks : Nat → List String → List OddsData
  | _, [] => []
  | i, l :: rest =>
    (let line := trimJS l
     if line = "" then []
     else
       match parseOddsLine line with
       | Except.ok o => [o]
       | Except.error _ => []) ++ oddsOks (i + 1) rest

/-- Warning messages of unparsable odds lines, in order (characterization
helper for the odds loop). -/
def oddsFails : Nat → List String → List String
  | _, [] => []
  | i, l :: rest =>
    (let line := trimJS l
     if line = "" then []
     else
       match parseOddsLine line with
       | Except.ok _ => []
       | Except.error msg => [oddsWarnMsg i msg]) ++ oddsFails (i + 1) rest

end P11

/-! ## P10: the layout-keyed parser (src/unnamed/part_010) -/

namespace P10

/-- `/(\d+):(\d+)発走.*(芝|ダート)(\d+)m.*馬場:(良|稍重|重|不良)/` -/
def raceDetailsPattern : RE :=
  .seq (.grp 1 (.plusG .digit)) (.seq (.lit ":")
    (.seq (.grp 2 (.plusG .digit)) (.seq (.lit "発走")
    (.seq (.starG .dot) (.seq (.grp 3 (.alt (.lit "芝") (.lit "ダート")))
    (.seq (.grp 4 (.plusG .digit)) (.seq (.lit "m")
    (.seq (.starG .dot) (.seq (.lit "馬場:")
    (.grp 5 (.alt (.lit "良") (.alt (.lit "稍重") (.alt (.lit "重") (.lit "不良"))))))))))))))

/-- `/(\d+)回\s*(東京|中山|阪神|京都|中京|新潟|福島|小倉|札幌|函館)\s*(\d+)日目.*?(G[123]|リステッド|Listed|オープン|3勝クラス|2勝クラス|1勝クラス|未勝利|新馬)/` -/
def meetingInfoPattern : RE :=
  .seq (.grp 1 (.plusG .digit)) (.seq (.lit "回")
    (.seq (.starG .space) (.seq (.grp 2 (.alt (.lit "東京") (.alt (.lit "中山")
      (.alt (.lit "阪神") (.alt (.lit "京都") (.alt (.lit "中京") (.alt (.lit "新潟")
      (.alt (.lit "福島") (.alt (.lit "小倉") (.alt (.lit "札幌") (.lit "函館")))))))))))
    (.seq (.starG .space) (.seq (.grp 3 (.plusG .digit)) (.seq (.lit "日目")
    (.seq (.starL .dot) (.grp 4 (.alt (.seq (.lit "G") (.cls (.oneOf ['1', '2', '3'])))
      (.alt (.lit "リステッド") (.alt (.lit "Listed") (.alt (.lit "オープン")
      (.alt (.lit "3勝クラス") (.alt (.lit "2勝クラス") (.alt (.lit "1勝クラス")
      (.alt (.lit "未勝利") (.lit "新馬")))))))))))))))))

/-- `/(\d+)R/` (the race-number guess). -/
def raceNumberGuessPattern : RE := .seq (.grp 1 (.plusG .digit)) (.lit "R")

/-- The error pushes of part_010's `parseRaceInfo`, in source order. -/
def raceErrors (text : String) (titleMatch : String)
    (raceDetailsMatch meetingMatch : Option Caps) : List ParseError :=
  (if titleMatch = "" then
    [{ type := "RACE_INFO", field := "title",
       message := "レース名が見つかりません", rawData := text }] else []) ++
  (if raceDetailsMatch.isNone then
    [{ type := "RACE_INFO", field := "raceDetails",
       message := "レース詳細情報が見つかりません", rawData := text }] else []) ++
  (if meetingMatch.isNone then
    [{ type := "RACE_INFO", field := "meetingInfo",
       message := "開催情報が見つかりません", rawData := text }] else [])

/-- Body of part_010's `parseRaceInfo`, abstracted over the title line, the
whole-text matches and the computed date.  The `patterns.title` and
`patterns.prize` regexes of the source are declared but never matched (the
title is taken from `lines[0].trim()` and the prize is unused), so they have
no embedding. -/
def buildRaceInfoCore (cfg : ParserConfig) (text : String)
    (titleMatch : String) (raceDetailsMatch meetingMatch raceNumberGuess :
      Option Caps) (date : JSDate) : ParseResult RaceInfo :=
  let errors : List ParseError :=
    raceErrors text titleMatch raceDetailsMatch meetingMatch
  let raceNumber : Int :=
    match raceNumberGuess with
    | some m => parseIntJS (capGet m 1)
    | none => 11
  let warnings : List String :=
    match raceNumberGuess with
    | some _ => []
    | none => ["レース番号が特定できないため、デフォルト値を使用します。"]
  let raceInfo : RaceInfo :=
    { venue := jsOrS (meetingMatch.map (fun m => capGet m 2)) "不明"
      raceNumber := raceNumber
      title := jsOrS (some titleMatch) "不明"
      distance :=
        match raceDetailsMatch with
        | some m => parseIntJS (capGet m 4)
        | none => 0
      surface := parseSurface (jsOrS (raceDetailsMatch.map (fun m => capGet m 3)) "芝")
      condition := parseTrackCondition (jsOrS (raceDetailsMatch.map (fun m => capGet m 5)) "良")
      raceClass := parseRaceClass (jsOrS (meetingMatch.map (fun m => capGet m 4)) "オープン")
      date := date }
  if errors = [] then
    { success := true, data := some raceInfo, errors := errors, warnings := warnings }
  else if cfg.strictMode then
    { success := false, errors := errors, warnings := warnings }
  else
    let criticalErrors := errors.filter (fun e =>
      e.field == "title" || e.field == "raceDetails" || e.field == "meetingInfo")
    if criticalErrors = [] then
      { success := true, data := some raceInfo, errors := errors, warnings := warnings }
    else
      { success := false, errors := errors, warnings := warnings }

/-- `parseRaceInfo` of part_010: the title is `lines[0].trim()` (guarded by
`lines[0] ? … : \'\'`), the other fields come from whole-text matches. -/
def buildRaceInfo (cfg : ParserConfig) (now : Int) (text : String)
    (titleMatch : String) (raceDetailsMatch meetingMatch raceNumberGuess :
      Option Caps) : ParseResult RaceInfo :=
  buildRaceInfoCore cfg text titleMatch raceDetailsMatch meetingMatch
    raceNumberGuess (JSDate.clock now)

/-- `parseRaceInfo` of part_010 (the built date is always `new Date()`; the
source comment says the real date must be set elsewhere). -/
def parseRaceInfo (cfg : ParserConfig) (now : Int) (text : String) :
    ParseResult RaceInfo :=
  buildRaceInfo cfg now text
    (match (splitLines text).head? with
     | some l => trimJS l
     | none => "")
    (reFind raceDetailsPattern text) (reFind meetingInfoPattern text)
    (reFind raceNumberGuessPattern text)

/-- `/^(\d+)\s+(\d+)\s*$/` (the post-position marker line). -/
def frameHorseFullPattern : RE :=
  .seq (.grp 1 (.plusG .digit)) (.seq (.plusG .space)
    (.seq (.grp 2 (.plusG .digit)) (.starG .space)))

/-- `splitIntoHorseBlocks` loop.  State: current block text, the `inHorseData`
flag, and the accumulated blocks.  On a marker line the source appends the
*next* line to the fresh block without advancing the index, so that line is
seen again by the following iteration — the embedding reproduces that. -/
def splitBlocksGo : List String → String → Bool → List String → List String
  | [], currentBlock, inHorseData, acc =>
    if !(trimJS currentBlock == "") && inHorseData then acc ++ [trimJS currentBlock]
    else acc
  | l :: rest, currentBlock, inHorseData, acc =>
    if (reMatchFull frameHorseFullPattern l).isSome then
      let acc1 :=
        if !(trimJS currentBlock == "") && inHorseData then acc ++ [trimJS currentBlock]
        else acc
      let cur1 :=
        match rest.head? with
        | some nxt => l ++ "\n" ++ nxt
        | none => l
      splitBlocksGo rest cur1 true acc1
    else
      let cur1 := if inHorseData then currentBlock ++ "\n" ++ l else currentBlock
      splitBlocksGo rest cur1 inHorseData acc

/-- `splitIntoHorseBlocks` of part_010. -/
def splitIntoHorseBlocks (text : String) : List String :=
  splitBlocksGo (splitLines text) "" false []

/-- `/^(\d+)\s+(\d+)/` (marker prefix inside `parseHorseBlock`). -/
def frameHorsePrefixPattern : RE :=
  .seq (.grp 1 (.plusG .digit)) (.seq (.plusG .space) (.grp 2 (.plusG .digit)))

/-- `/[ァ-ヶー぀-ゟ゠-ヿa-zA-Z]/` (name-like character test). -/
def nameCharClass : CC :=
  .ranges [('ァ', 'ヶ'), ('ー', 'ー'), ('぀', 'ゟ'), ('゠', 'ヿ'),
    ('a', 'z'), ('A', 'Z')]

/-- The filter applied to each (already trimmed) candidate line of the name
scan in `parseHorseBlock`. -/
def isNameCandidate (line : String) : Bool :=
  !(line == "") && reTest (.cls nameCharClass) line &&
  !(containsSub line "(") && !(containsSub line ")") &&
  !(containsSub line "kg") && !(containsSub line "人気") &&
  !(containsSub line "美浦") && !(containsSub line "栗東") &&
  !(containsSub line "差") && !(containsSub line "逃") &&
  !(containsSub line "先") && !(containsSub line "牡") &&
  !(containsSub line "牝") && !(containsSub line "セ") &&
  !(containsSub line "週") && !(containsSub line "休養")

/-- The name-candidate scan of `parseHorseBlock`: lines `2 … min(len, 6) - 1`,
trimmed, kept when `isNameCandidate`. -/
def nameCandidates (lines : List String) : List String :=
  (((lines.drop 2).take 4).map trimJS).filter isNameCandidate

/-- `/(\d+\.\d+)\s*\((\d+)人気\)/` (popularity odds). -/
def oddsPattern : RE :=
  .seq (.grp 1 (.seq (.plusG .digit) (.seq (.lit ".") (.plusG .digit))))
    (.seq (.starG .space) (.seq (.lit "(")
    (.seq (.grp 2 (.plusG .digit)) (.lit "人気)"))))

/-- `/(牡|牝|セ)(\d+)(黒鹿|栗|鹿|青鹿|芦|白)/` -/
def genderAgeColorPattern : RE :=
  .seq (.grp 1 (.alt (.lit "牡") (.alt (.lit "牝") (.lit "セ"))))
    (.seq (.grp 2 (.plusG .digit))
    (.grp 3 (.alt (.lit "黒鹿") (.alt (.lit "栗") (.alt (.lit "鹿")
      (.alt (.lit "青鹿") (.alt (.lit "芦") (.lit "白"))))))))

/-- `/(\d+)kg\(([+-]?\d+)\)/` (body weight). -/
def weightPattern : RE :=
  .seq (.grp 1 (.plusG .digit)) (.seq (.lit "kg(")
    (.seq (.grp 2 (.seq (.opt (.cls (.oneOf ['+', '-']))) (.plusG .digit)))
    (.lit ")")))

/-- First line of `lines` on which the pattern finds a match: its captures. -/
def firstMatchLine (r : RE) : List String → Option Caps
  | [] => none
  | l :: rest => (reFind r l).orElse (fun _ => firstMatchLine r rest)

/-- The big bracket class of the jockey-name test, transcribed range by range. -/
def jockeyCharsClass : CC :=
  .ranges [('぀', 'ゟ'), ('゠', 'ヿ'), ('一', '龯'),
    ('ぁ', 'ゖ'), ('ァ', 'ヺ'), ('ａ', 'ｚ'),
    ('Ａ', 'Ｚ'), ('ー', 'ー'), ('ア', 'ン'), ('a', 'z'),
    ('A', 'Z'), ('・', '・'), ('ー', 'ー'), ('、', '、'), ('。', '。'),
    ('・', '・'), ('·', '·'), ('々', '々')]

/-- `/[差逃先大][中大週]/` (running-style/rest notation). -/
def styleDistPattern : RE :=
  .seq (.cls (.oneOf ['差', '逃', '先', '大'])) (.cls (.oneOf ['中', '大', '週']))

/-- `/^\d+\.\d+/` -/
def decimalStartPattern : RE :=
  .seq (.plusG .digit) (.seq (.lit ".") (.plusG .digit))

/-- `/^\d{4}/` -/
def year4Pattern : RE := .repG 4 4 .digit

/-- `/^(\d+\.\d+)/` (assigned weight on the line after the jockey). -/
def weightNextPattern : RE :=
  .grp 1 (.seq (.plusG .digit) (.seq (.lit ".") (.plusG .digit)))

/-- The condition chain deciding whether a (trimmed) line is taken as the
jockey name. -/
def isJockeyLine (line : String) : Bool :=
  !(line == "") && 2 ≤ line.length && line.length ≤ 8 &&
  (reMatchFull (.plusG jockeyCharsClass) line).isSome &&
  !(containsSub line "美浦") && !(containsSub line "栗東") &&
  !(reTest styleDistPattern line) &&
  !(containsSub line "kg") && !(containsSub line "人気") &&
  !(containsSub line "休養") && !(containsSub line "鉄砲") &&
  !(containsSub line "ヵ月") && !(containsSub line "走目") &&
  !(line == "映像を見る") &&
  !(reTestPrefix decimalStartPattern line) && !(reTestPrefix year4Pattern line)

/-- The jockey scan of `parseHorseBlock`: walks the lines with the
`foundGenderAge` flag, returns the jockey name and assigned weight (defaults
`''` and `55.0`). -/
def jockeyScan : Bool → List String → String × ℚ
  | _, [] => ("", 55.0)
  | found, l :: rest =>
    let line := trimJS l
    if reTest genderAgeColorPattern line then jockeyScan true rest
    else if line = "" && found then jockeyScan found rest
    else if found && isJockeyLine line then
      let weight :=
        match rest.head? with
        | some nxt =>
          match reMatchPrefix weightNextPattern (trimJS nxt) with
          | some m => parseFloatJS (capGet m 1)
          | none => (55.0 : ℚ)
        | none => (55.0 : ℚ)
      (line, weight)
    else jockeyScan found rest

/-- `/(美浦|栗東)・([^\s]+)/` (trainer). -/
def trainerPattern : RE :=
  .seq (.grp 1 (.alt (.lit "美浦") (.lit "栗東")))
    (.seq (.lit "・") (.grp 2 (.plusG .notSpace)))

/-- `parseHorseBlock` of part_010.  The two loops that assign to the
commented-out `odds` and `bodyWeight` declarations assign to undeclared
identifiers; in a strict-mode ES module the first matching line therefore
raises `ReferenceError: odds is not defined` (resp. `bodyWeight`), modelled as
`Except.error` with the ReferenceError message, which the roster loop's
`catch` observes. -/
def parseHorseBlock (block : String) (blockNumber : Nat) : Except String HorseData :=
  let lines := splitLines block
  let firstLine :=
    match lines.head? with
    | some l => l
    | none => ""
  match reMatchPrefix frameHorsePrefixPattern firstLine with
  | none => Except.error ("枠番・馬番が見つかりません: " ++ firstLine)
  | some fm =>
    let horseNumber := parseIntJS (capGet fm 2)
    let candidateNames := nameCandidates lines
    let horseName :=
      if 2 ≤ candidateNames.length then candidateNames.getD 1 ""
      else
        match candidateNames.head? with
        | some n => n
        | none => ""
    if horseName = "" then
      Except.error ("馬名が見つかりません: ブロック" ++ toString blockNumber)
    else if lines.any (fun l => reTest oddsPattern l) then
      Except.error "odds is not defined"
    else
      let genderAge :=
        match firstMatchLine genderAgeColorPattern lines with
        | some m => (capGet m 1, parseIntJS (capGet m 2))
        | none => ("male", (4 : Int))
      if lines.any (fun l => reTest weightPattern l) then
        Except.error "bodyWeight is not defined"
      else
        let jw := jockeyScan false lines
        let trainerName :=
          match firstMatchLine trainerPattern lines with
          | some m => trimJS (capGet m 2)
          | none => ""
        Except.ok
          { number := horseNumber
            name := horseName
            age := genderAge.2
            gender := parseGender genderAge.1
            weight := jw.2
            jockeyName := jw.1
            trainerName := trainerName }

/-- Fragment step of part_010's roster loop (`parseHorseBlock(block, i + 1)`;
the function never returns `null`, so the `if (horse)` guard is always taken). -/
def rosterFrag (i : Nat) (b : String) : Option (Except String HorseData) :=
  some (parseHorseBlock b (i + 1))

/-- The `ParseError` built in part_010's roster `catch` block. -/
def rosterMkErr (i : Nat) (b : String) (msg : String) : ParseError :=
  { type := "HORSE_DATA"
    field := "horseBlock"
    message := toString (i + 1) ++ "番目の馬データパースに失敗: " ++ msg
    rawData := b
    lineNumber := some (i + 1) }

/-- `parseHorseDataInternal` of part_010. -/
def parseHorseDataInternal (cfg : ParserConfig) (text : String) :
    ParseResult (List HorseData) :=
  let horseBlocks := splitIntoHorseBlocks text
  let st := horseLoop cfg.skipInvalidHorses rosterFrag rosterMkErr 0 horseBlocks
    { horses := [], errors := [], warnings := [] }
  let errors := st.errors ++ (if st.horses = [] then [generalHorseErr text] else [])
  let warnings := st.warnings ++
    (if cfg.maxHorses < st.horses.length then [maxHorsesWarn cfg] else [])
  { success := errors.isEmpty
    data := some st.horses
    errors := errors
    warnings := warnings }

/-- `parseHorseData` of part_010: the public roster entry point, which throws
(`Except.error`) whenever the internal parse is unsuccessful. -/
def parseHorseData (cfg : ParserConfig) (text : String) :
    Except String (List HorseDataForm) :=
  let result := parseHorseDataInternal cfg text
  if result.success = false then Except.error (horseThrowMsg result)
  else
    match result.data with
    | none => Except.error (horseThrowMsg result)
    | some ds => Except.ok (ds.map toHorseDataForm)

/-- `\d+(?:\.\d+)?` -/
def decimalRE : RE := .seq (.plusG .digit) (.opt (.seq (.lit ".") (.plusG .digit)))

/-- `/^(.+?)\s+(\d+(?:\.\d+)?)$/` (win-section data line). -/
def winLinePattern : RE :=
  .seq (.grp 1 (.plusL .dot)) (.seq (.plusG .space) (.grp 2 decimalRE))

/-- `/^(.+?)\s+(\d+(?:\.\d+)?)\s*-\s*(\d+(?:\.\d+)?)$/` (place-section data line). -/
def placeLinePattern : RE :=
  .seq (.grp 1 (.plusL .dot)) (.seq (.plusG .space)
    (.seq (.grp 2 decimalRE) (.seq (.starG .space)
    (.seq (.lit "-") (.seq (.starG .space) (.grp 3 decimalRE))))))

/-- JavaScript `Map.prototype.set`: overwrite in place or append. -/
def assocSet {α : Type} (m : List (Int × α)) (k : Int) (v : α) : List (Int × α) :=
  if m.any (fun p => p.1 == k) then m.map (fun p => if p.1 == k then (k, v) else p)
  else m ++ [(k, v)]

/-- JavaScript `Map.prototype.get` (`undefined` as `none`). -/
def assocGet {α : Type} (m : List (Int × α)) (k : Int) : Option α :=
  (m.find? (fun p => p.1 == k)).map (fun p => p.2)

/-- Insertion-order keys of a map. -/
def keysOf {α : Type} (m : List (Int × α)) : List Int := m.map (fun p => p.1)

/-- The section-driven scan of part_010's `parseOdds`, accumulating the win and
place maps.  A consumed data line advances the cursor by two (`i++` inside the
loop); an unparsable data line leaves it to be revisited as an ordinary line. -/
def oddsScan : String → List (Int × ℚ) → List (Int × ℚ × ℚ) → List String →
    List (Int × ℚ) × List (Int × ℚ × ℚ)
  | _, win, place, [] => (win, place)
  | sec, win, place, l :: rest =>
    let line := trimJS l
    if line = "" then oddsScan sec win place rest
    else if line = "単勝" then oddsScan "win" win place rest
    else if line = "複勝" then oddsScan "place" win place rest
    else if (containsSub line "枠" && containsSub line "馬") ||
        (containsSub line "番" && containsSub line "印") ||
        (containsSub line "選択" && containsSub line "馬名") then
      oddsScan sec win place rest
    else
      match reMatchFull frameHorseFullPattern line with
      | none => oddsScan sec win place rest
      | some fm =>
        match rest with
        | [] => (win, place)
        | nxt :: rest2 =>
          let horseNumber := parseIntJS (capGet fm 2)
          let nextLine := trimJS nxt
          if sec = "win" then
            match reMatchFull winLinePattern nextLine with
            | some m =>
              oddsScan sec (assocSet win horseNumber (parseFloatJS (capGet m 2))) place rest2
            | none => oddsScan sec win place (nxt :: rest2)
          else if sec = "place" then
            match reMatchFull placeLinePattern nextLine with
            | some m =>
              oddsScan sec win
                (assocSet place horseNumber (parseFloatJS (capGet m 2), parseFloatJS (capGet m 3)))
                rest2
            | none => oddsScan sec win place (nxt :: rest2)
          else oddsScan sec win place (nxt :: rest2)
termination_by _ _ _ ls => ls.length
decreasing_by all_goals (simp [List.length_cons]; try omega)

/-- The win/place maps `parseOdds` accumulates on a given input. -/
def oddsMapsOf (text : String) : List (Int × ℚ) × List (Int × ℚ × ℚ) :=
  oddsScan "" [] [] (filteredLines text)

/-- First-occurrence deduplication helper (`seen` accumulates emitted keys). -/
def dedupAux (seen : List Int) : List Int → List Int
  | [] => []
  | k :: rest =>
    if seen.contains k then dedupAux seen rest
    else k :: dedupAux (k :: seen) rest

/-- Iteration order of `new Set([...win.keys(), ...place.keys()])`: first
occurrence wins. -/
def dedupKeys (l : List Int) : List Int := dedupAux [] l

/-- The record built for one horse number from the two maps (the `||`
fallbacks keep JavaScript's falsy-zero semantics via `jsOrQ`). -/
def mkOddsRecord (cfg : ParserConfig) (win : List (Int × ℚ))
    (place : List (Int × ℚ × ℚ)) (horseNumber : Int) : OddsData :=
  let winOdds := jsOrQ (assocGet win horseNumber) cfg.defaultOdds
  let placeOdds := assocGet place horseNumber
  { horseNumber := horseNumber
    winOdds := winOdds
    placeOddsMin := jsOrQ (placeOdds.map (fun p => p.1)) (winOdds / 3)
    placeOddsMax := jsOrQ (placeOdds.map (fun p => p.2)) (winOdds / 2) }

/-- `oddsData.sort((a, b) => a.horseNumber - b.horseNumber)`. -/
def sortByHorseNumber (l : List OddsData) : List OddsData :=
  List.insertionSort (fun a b => a.horseNumber ≤ b.horseNumber) l

/-- `parseOdds` of part_010. -/
def parseOdds (cfg : ParserConfig) (text : String) : ParseResult (List OddsData) :=
  let maps := oddsMapsOf text
  let allHorseNumbers := dedupKeys (keysOf maps.1 ++ keysOf maps.2)
  let oddsData := allHorseNumbers.map (mkOddsRecord cfg maps.1 maps.2)
  let sorted := sortByHorseNumber oddsData
  { success := true, data := some sorted, errors := [], warnings := [] }

end P10

/-! ## Helper definitions for the verification statements -/

/-- Erase the date field of a race-info result (used to state which part of the
output is clock-independent). -/
def stripDate (r : ParseResult RaceInfo) : ParseResult RaceInfo :=
  { r with data := r.data.map (fun d => { d with date := JSDate.ymd 0 0 0 }) }

/-- Part_011 roster fragments parsed successfully, in order. -/
def p11RosterOks (text : String) : List HorseData :=
  fragOks P11.rosterFrag 0 (filteredLines text)

/-- Part_011 roster fragment errors, in order. -/
def p11RosterErrs (text : String) : List ParseError :=
  fragErrs P11.rosterFrag P11.rosterMkErr 0 (filteredLines text)

/-- Part_011 roster fragment warning messages, in order. -/
def p11RosterWarns (text : String) : List String :=
  fragWarns P11.rosterFrag P11.rosterMkErr 0 (filteredLines text)

/-- Part_010 roster fragments parsed successfully, in order. -/
def p10RosterOks (text : String) : List HorseData :=
  fragOks P10.rosterFrag 0 (P10.splitIntoHorseBlocks text)

/-- Part_010 roster fragment errors, in order. -/
def p10RosterErrs (text : String) : List ParseError :=
  fragErrs P10.rosterFrag P10.rosterMkErr 0 (P10.splitIntoHorseBlocks text)

/-- Part_010 roster fragment warning messages, in order. -/
def p10RosterWarns (text : String) : List String :=
  fragWarns P10.rosterFrag P10.rosterMkErr 0 (P10.splitIntoHorseBlocks text)

/-- The record comparator of `sortByHorseNumber` is total. -/
instance : IsTotal OddsData (fun a b => a.horseNumber ≤ b.horseNumber) :=
  ⟨fun a b => Int.le_total a.horseNumber b.horseNumber⟩

/-- The record comparator of `sortByHorseNumber` is transitive. -/
instance : IsTrans OddsData (fun a b => a.horseNumber ≤ b.horseNumber) :=
  ⟨fun _ _ _ hab hbc => le_trans hab hbc⟩

/-! ## Characterization of the roster loop -/

/-- The roster loop appends, to the incoming state, exactly the successfully
parsed fragments, the fragment errors (when `skipInvalidHorses` is false) and
the fragment warnings (when it is true). -/
theorem horseLoop_spec (skip : Bool) (frag : Nat → String → Option (Except String HorseData))
    (mkErr : Nat → String → String → ParseError) :
    ∀ (ls : List String) (i : Nat) (st : HState),
      horseLoop skip frag mkErr i ls st =
        { horses := st.horses ++ fragOks frag i ls
          errors := st.errors ++ (if skip then [] else fragErrs frag mkErr i ls)
          warnings := st.warnings ++ (if skip then fragWarns frag mkErr i ls else []) } := by
  intro ls
  induction ls with
  | nil =>
    intro i st
    cases skip <;> simp [horseLoop, fragOks, fragErrs, fragWarns]
  | cons l rest ih =>
    intro i st
    rw [horseLoop, ih]
    cases hf : frag i l with
    | none =>
      cases skip <;>
        simp [horseStep, hf, fragOks, fragErrs, fragWarns]
    | some r =>
      cases r with
      | ok h =>
        cases skip <;>
          simp [horseStep, hf, fragOks, fragErrs, fragWarns]
      | error msg =>
        cases skip <;>
          simp [horseStep, hf, fragOks, fragErrs, fragWarns]

/-- Explicit form of part_011's `parseHorseDataInternal`. -/
theorem p11_parseHorseDataInternal_eq (cfg : ParserConfig) (text : String) :
    P11.parseHorseDataInternal cfg text =
      { success :=
          ((if cfg.skipInvalidHorses then [] else p11RosterErrs text) ++
            (if p11RosterOks text = [] then [generalHorseErr text] else [])).isEmpty
        data := some (p11RosterOks text)
        errors := (if cfg.skipInvalidHorses then [] else p11RosterErrs text) ++
          (if p11RosterOks text = [] then [generalHorseErr text] else [])
        warnings := (if cfg.skipInvalidHorses then p11RosterWarns text else []) ++
          (if cfg.maxHorses < (p11RosterOks text).length then [maxHorsesWarn cfg] else []) } := by
  unfold P11.parseHorseDataInternal
  simp only [horseLoop_spec]
  simp [p11RosterOks, p11RosterErrs, p11RosterWarns]

/-- Explicit form of part_010's `parseHorseDataInternal`. -/
theorem p10_parseHorseDataInternal_eq (cfg : ParserConfig) (text : String) :
    P10.parseHorseDataInternal cfg text =
      { success :=
          ((if cfg.skipInvalidHorses then [] else p10RosterErrs text) ++
            (if p10RosterOks text = [] then [generalHorseErr text] else [])).isEmpty
        data := some (p10RosterOks text)
        errors := (if cfg.skipInvalidHorses then [] else p10RosterErrs text) ++
          (if p10RosterOks text = [] then [generalHorseErr text] else [])
        warnings := (if cfg.skipInvalidHorses then p10RosterWarns text else []) ++
          (if cfg.maxHorses < (p10RosterOks text).length then [maxHorsesWarn cfg] else []) } := by
  unfold P10.parseHorseDataInternal
  simp only [horseLoop_spec]
  simp [p10RosterOks, p10RosterErrs, p10RosterWarns]

/-- C1: the public roster entry point `parseHorseData` of both parser variants
throws (modelled as `Except.error`) when the roster text cannot be parsed —
here on the empty roster, whose internal parse fails with the roster-level
error — instead of returning a result object carrying its diagnostics. -/
theorem c1_parseHorseData_throws_on_unparsable_roster (cfg : ParserConfig) :
    P11.parseHorseData cfg "" = Except.error "有効な馬データが見つかりませんでした" ∧
    P10.parseHorseData cfg "" = Except.error "有効な馬データが見つかりませんでした" := by
  have h11o : p11RosterOks "" = [] := by decide
  have h11e : p11RosterErrs "" = [] := by decide
  have h11w : p11RosterWarns "" = [] := by decide
  have h10o : p10RosterOks "" = [] := by decide
  have h10e : p10RosterErrs "" = [] := by decide
  have h10w : p10RosterWarns "" = [] := by decide
  constructor
  · simp [P11.parseHorseData, p11_parseHorseDataInternal_eq, h11o, h11e, h11w,
      horseThrowMsg, generalHorseErr, jsOrS]
  · simp [P10.parseHorseData, p10_parseHorseDataInternal_eq, h10o, h10e, h10w,
      horseThrowMsg, generalHorseErr, jsOrS]

/-- C3: fragment-failure policy of `parseHorseDataInternal`, for both parser
variants.  With `skipInvalidHorses = true` every failing fragment contributes a
Warning (never an Error), is omitted from the returned list, the remaining
fragments still produce records, and the call succeeds iff at least one record
was extracted; with `skipInvalidHorses = false` the fragment Errors are kept
and the call succeeds only if no fragment failed (and one succeeded). -/
theorem c3_fragment_failure_policy (cfg : ParserConfig) (text : String) :
    ((P11.parseHorseDataInternal { cfg with skipInvalidHorses := true } text).data =
        some (p11RosterOks text) ∧
      (P11.parseHorseDataInternal { cfg with skipInvalidHorses := true } text).errors =
        (if p11RosterOks text = [] then [generalHorseErr text] else []) ∧
      (P11.parseHorseDataInternal { cfg with skipInvalidHorses := true } text).warnings =
        p11RosterWarns text ++
          (if cfg.maxHorses < (p11RosterOks text).length then [maxHorsesWarn cfg] else []) ∧
      ((P11.parseHorseDataInternal { cfg with skipInvalidHorses := true } text).success = true ↔
        p11RosterOks text ≠ []))
    ∧
    ((P11.parseHorseDataInternal { cfg with skipInvalidHorses := false } text).data =
        some (p11RosterOks text) ∧
      (P11.parseHorseDataInternal { cfg with skipInvalidHorses := false } text).errors =
        p11RosterErrs text ++
          (if p11RosterOks text = [] then [generalHorseErr text] else []) ∧
      (P11.parseHorseDataInternal { cfg with skipInvalidHorses := false } text).warnings =
        (if cfg.maxHorses < (p11RosterOks text).length then [maxHorsesWarn cfg] else []) ∧
      ((P11.parseHorseDataInternal { cfg with skipInvalidHorses := false } text).success = true ↔
        (p11RosterErrs text = [] ∧ p11RosterOks text ≠ [])))
    ∧
    ((P10.parseHorseDataInternal { cfg with skipInvalidHorses := true } text).data =
        some (p10RosterOks text) ∧
      (P10.parseHorseDataInternal { cfg with skipInvalidHorses := true } text).errors =
        (if p10RosterOks text = [] then [generalHorseErr text] else []) ∧
      (P10.parseHorseDataInternal { cfg with skipInvalidHorses := true } text).warnings =
        p10RosterWarns text ++
          (if cfg.maxHorses < (p10RosterOks text).length then [maxHorsesWarn cfg] else []) ∧
      ((P10.parseHorseDataInternal { cfg with skipInvalidHorses := true } text).success = true ↔
        p10RosterOks text ≠ []))
    ∧
    ((P10.parseHorseDataInternal { cfg with skipInvalidHorses := false } text).data =
        some (p10RosterOks text) ∧
      (P10.parseHorseDataInternal { cfg with skipInvalidHorses := false } text).errors =
        p10RosterErrs text ++
          (if p10RosterOks text = [] then [generalHorseErr text] else []) ∧
      (P10.parseHorseDataInternal { cfg with skipInvalidHorses := false } text).warnings =
        (if cfg.maxHorses < (p10RosterOks text).length then [maxHorsesWarn cfg] else []) ∧
      ((P10.parseHorseDataInternal { cfg with skipInvalidHorses := false } text).success = true ↔
        (p10RosterErrs text = [] ∧ p10RosterOks text ≠ []))) := by
  refine ⟨⟨?_, ?_, ?_, ?_⟩, ⟨?_, ?_, ?_, ?_⟩, ⟨?_, ?_, ?_, ?_⟩, ⟨?_, ?_, ?_, ?_⟩⟩ <;>
    simp only [p11_parseHorseDataInternal_eq, p10_parseHorseDataInternal_eq] <;>
    by_cases ho11 : p11RosterOks text = [] <;>
    by_cases he11 : p11RosterErrs text = [] <;>
    by_cases ho10 : p10RosterOks text = [] <;>
    by_cases he10 : p10RosterErrs text = [] <;>
    simp_all [maxHorsesWarn]

/-- C3 witness: a roster of 5 fragments with 1 malformed line, run through the
policy theorem at a concrete config: 4 records, 1 warning, success with
`skipInvalidHorses = true`, failure with `false`. -/
theorem c3_fragment_failure_policy_witness :
    (P11.parseHorseDataInternal { defaultConfig with skipInvalidHorses := true }
        "1 ウマイチ 牡3 56 キシュイチ シチョウイチ\n2 ウマニ 牝3 54 キシュニ シチョウニ\nガラクタギョウ\n4 ウマヨン 牡3 56 キシュヨン シチョウヨン\n5 ウマゴ セ4 57 キシュゴ シチョウゴ").data =
      some (p11RosterOks
        "1 ウマイチ 牡3 56 キシュイチ シチョウイチ\n2 ウマニ 牝3 54 キシュニ シチョウニ\nガラクタギョウ\n4 ウマヨン 牡3 56 キシュヨン シチョウヨン\n5 ウマゴ セ4 57 キシュゴ シチョウゴ") ∧
    (p11RosterOks
        "1 ウマイチ 牡3 56 キシュイチ シチョウイチ\n2 ウマニ 牝3 54 キシュニ シチョウニ\nガラクタギョウ\n4 ウマヨン 牡3 56 キシュヨン シチョウヨン\n5 ウマゴ セ4 57 キシュゴ シチョウゴ").length = 4 ∧
    (p11RosterWarns
        "1 ウマイチ 牡3 56 キシュイチ シチョウイチ\n2 ウマニ 牝3 54 キシュニ シチョウニ\nガラクタギョウ\n4 ウマヨン 牡3 56 キシュヨン シチョウヨン\n5 ウマゴ セ4 57 キシュゴ シチョウゴ").length = 1 ∧
    (P11.parseHorseDataInternal { defaultConfig with skipInvalidHorses := true }
        "1 ウマイチ 牡3 56 キシュイチ シチョウイチ\n2 ウマニ 牝3 54 キシュニ シチョウニ\nガラクタギョウ\n4 ウマヨン 牡3 56 キシュヨン シチョウヨン\n5 ウマゴ セ4 57 キシュゴ シチョウゴ").success = true ∧
    (P11.parseHorseDataInternal { defaultConfig with skipInvalidHorses := false }
        "1 ウマイチ 牡3 56 キシュイチ シチョウイチ\n2 ウマニ 牝3 54 キシュニ シチョウニ\nガラクタギョウ\n4 ウマヨン 牡3 56 キシュヨン シチョウヨン\n5 ウマゴ セ4 57 キシュゴ シチョウゴ").success = false :=
  ⟨(c3_fragment_failure_policy defaultConfig _).1.1,
   by with_unfolding_all decide,
   by with_unfolding_all decide,
   (c3_fragment_failure_policy defaultConfig _).1.2.2.2.mpr (by with_unfolding_all decide),
   by with_unfolding_all decide⟩

/-- C9 counterexample: two roster fragments carrying the same horse number 1
are both kept in the returned list (numbers `[1, 1]`, not unique) while the
call reports zero errors and zero warnings — no Validation diagnostic of any
kind is produced. -/
theorem c9_counterexample_duplicate_numbers_kept :
    List.map HorseData.number
        ((P11.parseHorseDataInternal defaultConfig
          "1 ウマエス 牡3 56 タケ フジ\n1 ウマビス 牡4 57 イワ ヤザ").data.getD []) = [1, 1] ∧
    ¬ (List.map HorseData.number
        ((P11.parseHorseDataInternal defaultConfig
          "1 ウマエス 牡3 56 タケ フジ\n1 ウマビス 牡4 57 イワ ヤザ").data.getD [])).Nodup ∧
    (P11.parseHorseDataInternal defaultConfig
      "1 ウマエス 牡3 56 タケ フジ\n1 ウマビス 牡4 57 イワ ヤザ").errors = [] ∧
    (P11.parseHorseDataInternal defaultConfig
      "1 ウマエス 牡3 56 タケ フジ\n1 ウマビス 牡4 57 イワ ヤザ").warnings = [] ∧
    (P11.parseHorseDataInternal defaultConfig
      "1 ウマエス 牡3 56 タケ フジ\n1 ウマビス 牡4 57 イワ ヤザ").success = true := by
  with_unfolding_all decide

/-- C9 amended: duplicate horse numbers are silently kept — the roster result
is exactly the per-fragment parse list in input order, with no uniqueness
check and no diagnostic, and `validateParsedData` (the only validation entry
point) can only ever report on the fields data/venue/distance/raceNumber,
never on horse-number uniqueness. -/
theorem c9_amended_duplicates_silently_kept :
    (∀ (cfg : ParserConfig) (text : String),
      (P11.parseHorseDataInternal cfg text).data = some (p11RosterOks text) ∧
      (P10.parseHorseDataInternal cfg text).data = some (p10RosterOks text))
    ∧ (∀ (input : Option ValidateInput), ∀ e ∈ (validateParsedData input).errors,
        e.field = "data" ∨ e.field = "venue" ∨ e.field = "distance" ∨
          e.field = "raceNumber") := by
  constructor
  · intro cfg text
    exact ⟨by simp [p11_parseHorseDataInternal_eq], by simp [p10_parseHorseDataInternal_eq]⟩
  · intro input e he
    cases input with
    | none =>
      simp [validateParsedData] at he
      simp [he]
    | some d =>
      simp only [validateParsedData, List.mem_append] at he
      rcases he with (h | h) | h <;>
        (split at h <;> (try split at h) <;> simp_all)

/-- C9 amended witness: the amended theorem applied to the duplicate-number
roster and to a venue-less validation input. -/
theorem c9_amended_witness :
    (P11.parseHorseDataInternal defaultConfig
      "1 ウマエス 牡3 56 タケ フジ\n1 ウマビス 牡4 57 イワ ヤザ").data =
      some (p11RosterOks "1 ウマエス 牡3 56 タケ フジ\n1 ウマビス 牡4 57 イワ ヤザ") ∧
    (∀ e ∈ (validateParsedData
        (some { venue := some "", distance := some 500, raceNumber := some 15 })).errors,
      e.field = "data" ∨ e.field = "venue" ∨ e.field = "distance" ∨
        e.field = "raceNumber") :=
  ⟨(c9_amended_duplicates_silently_kept.1 defaultConfig _).1,
   c9_amended_duplicates_silently_kept.2 _⟩

/-- Part_011's odds loop appends exactly the successfully parsed lines and the
warning messages of the unparsable ones. -/
theorem oddsLoop_spec :
    ∀ (ls : List String) (i : Nat) (st : List OddsData × List String),
      P11.oddsLoop i ls st =
        (st.1 ++ P11.oddsOks i ls, st.2 ++ P11.oddsFails i ls) := by
  intro ls
  induction ls with
  | nil => intro i st; simp [P11.oddsLoop, P11.oddsOks, P11.oddsFails]
  | cons l rest ih =>
    intro i st
    rw [P11.oddsLoop, ih]
    by_cases hb : trimJS l = ""
    · simp [P11.oddsOks, P11.oddsFails, hb]
    · cases hp : P11.parseOddsLine (trimJS l) with
      | ok o => simp [P11.oddsOks, P11.oddsFails, hb, hp]
      | error msg => simp [P11.oddsOks, P11.oddsFails, hb, hp]

/-- C7 counterexample: in the part_010 odds extractor a marker line followed by
an unparsable data line is skipped *silently* — the call reports zero warnings
(and an empty record list), not the Warning the claim requires. -/
theorem c7_counterexample_silent_skip_no_warning :
    P10.parseOdds defaultConfig "単勝\n1\t1\nガラクタ" =
      { success := true, data := some [], errors := [], warnings := [] } := by
  with_unfolding_all decide

/-- C7 amended: both odds extractors always return `success = true` with an
empty error list (including on input with no odds at all, which yields an empty
record list); in the part_011 variant every unparsable line is recorded as a
Warning and skipped, while the part_010 variant never records any warning — an
unparsable marker/data pair there is skipped with no diagnostic. -/
theorem c7_amended_success_and_warnings (cfg : ParserConfig) (text : String) :
    ((P10.parseOdds cfg text).success = true ∧
      (P10.parseOdds cfg text).errors = [] ∧
      (P10.parseOdds cfg text).warnings = []) ∧
    ((P11.parseOdds cfg text).success = true ∧
      (P11.parseOdds cfg text).errors = [] ∧
      (P11.parseOdds cfg text).data = some (P11.oddsOks 0 (filteredLines text)) ∧
      (P11.parseOdds cfg text).warnings = P11.oddsFails 0 (filteredLines text)) := by
  refine ⟨⟨rfl, rfl, rfl⟩, ?_⟩
  unfold P11.parseOdds
  simp only [oddsLoop_spec]
  simp

/-- C7 amended witness: the amended theorem at concrete inputs — an empty odds
block still succeeds with an empty list, and one unparsable line yields exactly
one warning in the part_011 variant. -/
theorem c7_amended_witness :
    (P10.parseOdds defaultConfig "").success = true ∧
    (P11.parseOdds defaultConfig "ガラクタ").warnings =
      P11.oddsFails 0 (filteredLines "ガラクタ") ∧
    (P11.oddsFails 0 (filteredLines "ガラクタ")).length = 1 ∧
    (P11.parseOdds defaultConfig "").data = some [] :=
  ⟨(c7_amended_success_and_warnings defaultConfig "").1.1,
   (c7_amended_success_and_warnings defaultConfig "ガラクタ").2.2.2.2,
   by with_unfolding_all decide,
   by
     have h := (c7_amended_success_and_warnings defaultConfig "").2.2.2.1
     rw [h]
     with_unfolding_all decide⟩

/-- Everything but the date field of part_011's race-info result is
independent of the clock instant. -/
theorem p11_buildRaceInfoCore_stripDate (cfg : ParserConfig) (text : String)
    (vM rM tM dM cM clM dtM : Option Caps) (d1 d2 : JSDate) :
    stripDate (P11.buildRaceInfoCore cfg text vM rM tM dM cM clM dtM d1) =
      stripDate (P11.buildRaceInfoCore cfg text vM rM tM dM cM clM dtM d2) := by
  simp only [P11.buildRaceInfoCore, apply_ite stripDate]
  simp [stripDate]

/-- Everything but the date field of part_011's race-info result is
independent of the clock instant. -/
theorem p11_buildRaceInfo_stripDate (cfg : ParserConfig) (text : String)
    (n1 n2 : Int) (vM rM tM dM cM clM dtM : Option Caps) :
    stripDate (P11.buildRaceInfo cfg n1 text vM rM tM dM cM clM dtM) =
      stripDate (P11.buildRaceInfo cfg n2 text vM rM tM dM cM clM dtM) := by
  unfold P11.buildRaceInfo
  exact p11_buildRaceInfoCore_stripDate cfg text vM rM tM dM cM clM dtM _ _

/-- Everything but the date field of part_010's race-info result is
independent of the clock instant. -/
theorem p10_buildRaceInfoCore_stripDate (cfg : ParserConfig) (text : String)
    (tM : String) (rdM mM rnG : Option Caps) (d1 d2 : JSDate) :
    stripDate (P10.buildRaceInfoCore cfg text tM rdM mM rnG d1) =
      stripDate (P10.buildRaceInfoCore cfg text tM rdM mM rnG d2) := by
  simp only [P10.buildRaceInfoCore, apply_ite stripDate]
  simp [stripDate]

/-- Everything but the date field of part_010's race-info result is
independent of the clock instant. -/
theorem p10_buildRaceInfo_stripDate (cfg : ParserConfig) (text : String)
    (n1 n2 : Int) (tM : String) (rdM mM rnG : Option Caps) :
    stripDate (P10.buildRaceInfo cfg n1 text tM rdM mM rnG) =
      stripDate (P10.buildRaceInfo cfg n2 text tM rdM mM rnG) := by
  unfold P10.buildRaceInfo
  exact p10_buildRaceInfoCore_stripDate cfg text tM rdM mM rnG _ _

/-- C2 counterexample: two `parseRaceInfo` calls (part_011 variant) on the
identical, successfully parsed block at different clock instants return
different `RaceInfo` records — the `date` field is taken from `new Date()`
when the block carries no date, so the output is not a function of the input
and config alone. -/
theorem c2_counterexample_clock_changes_race_date :
    P11.parseRaceInfo defaultConfig 0 "東京 11R ダービー 芝2400m" ≠
      P11.parseRaceInfo defaultConfig 1 "東京 11R ダービー 芝2400m" ∧
    (P11.parseRaceInfo defaultConfig 0 "東京 11R ダービー 芝2400m").success = true ∧
    (P11.parseRaceInfo defaultConfig 1 "東京 11R ダービー 芝2400m").success = true := by
  refine ⟨?_, by decide, by decide⟩
  intro heq
  have h0 : (P11.parseRaceInfo defaultConfig 0 "東京 11R ダービー 芝2400m").data.map
      (fun d => d.date) = some (JSDate.clock 0) := by decide
  have h1 : (P11.parseRaceInfo defaultConfig 1 "東京 11R ダービー 芝2400m").data.map
      (fun d => d.date) = some (JSDate.clock 1) := by decide
  rw [heq, h1] at h0
  exact absurd h0 (by decide)

/-- C2 amended: extractor output is a pure function of text, config and clock;
everything except the `RaceInfo.date` field is clock-independent, and in the
part_011 variant the whole output is clock-independent exactly when the date
pattern matches the block.  (In the part_010 variant `date` is always
`new Date()`.) -/
theorem c2_amended_deterministic_except_date (cfg : ParserConfig) (text : String)
    (n1 n2 : Int) :
    stripDate (P11.parseRaceInfo cfg n1 text) = stripDate (P11.parseRaceInfo cfg n2 text) ∧
    stripDate (P10.parseRaceInfo cfg n1 text) = stripDate (P10.parseRaceInfo cfg n2 text) ∧
    ((reFind P11.datePattern text).isSome = true →
      P11.parseRaceInfo cfg n1 text = P11.parseRaceInfo cfg n2 text) := by
  refine ⟨?_, ?_, ?_⟩
  · exact p11_buildRaceInfo_stripDate cfg text n1 n2 _ _ _ _ _ _ _
  · exact p10_buildRaceInfo_stripDate cfg text n1 n2 _ _ _ _
  · intro h
    obtain ⟨m, hm⟩ := Option.isSome_iff_exists.mp h
    unfold P11.parseRaceInfo P11.buildRaceInfo
    rw [hm]
    simp [P11.dateOf]

/-- C2 amended witness: the amended theorem at a concrete config and block —
clock-independence of the stripped result, and full equality when the block
carries a date. -/
theorem c2_amended_witness :
    stripDate (P11.parseRaceInfo defaultConfig 0 "東京 11R ダービー 芝2400m") =
      stripDate (P11.parseRaceInfo defaultConfig 5 "東京 11R ダービー 芝2400m") ∧
    P11.parseRaceInfo defaultConfig 0 "東京 11R ダービー 芝2400m 2024年5月26日" =
      P11.parseRaceInfo defaultConfig 5 "東京 11R ダービー 芝2400m 2024年5月26日" :=
  ⟨(c2_amended_deterministic_except_date defaultConfig _ 0 5).1,
   (c2_amended_deterministic_except_date defaultConfig _ 0 5).2.2 (by decide)⟩

/-- The venue error is in part_011's error list when the venue match is
missing. -/
theorem p11_raceErrors_venue_mem (text : String) (rM tM dM dtM : Option Caps) :
    ({ type := "RACE_INFO", field := "venue",
       message := "競馬場名が見つかりません", rawData := text } : ParseError) ∈
      P11.raceErrors text none rM tM dM dtM := by
  unfold P11.raceErrors
  simp

/-- The distance error is in part_011's error list when the distance match is
missing. -/
theorem p11_raceErrors_distance_mem (text : String) (vM rM tM dtM : Option Caps) :
    ({ type := "RACE_INFO", field := "distance",
       message := "距離・コース情報が見つかりません", rawData := text } : ParseError) ∈
      P11.raceErrors text vM rM tM none dtM := by
  unfold P11.raceErrors
  simp

/-- The race-number error is in part_011's error list when the race-number
match is missing. -/
theorem p11_raceErrors_raceNumber_mem (text : String) (vM tM dM dtM : Option Caps) :
    ({ type := "RACE_INFO", field := "raceNumber",
       message := "レース番号が見つかりません", rawData := text } : ParseError) ∈
      P11.raceErrors text vM none tM dM dtM := by
  unfold P11.raceErrors
  simp

/-- Part_011's result when the error list carries a critical error: the
unsuccessful, data-less record, in strict and non-strict mode alike. -/
theorem p11_core_fail (cfg : ParserConfig) (text : String)
    (vM rM tM dM cM clM dtM : Option Caps) (d : JSDate) (e : ParseError)
    (he : e ∈ P11.raceErrors text vM rM tM dM dtM)
    (hcrit : (e.field == "venue" || e.field == "raceNumber" || e.field == "distance") = true) :
    P11.buildRaceInfoCore cfg text vM rM tM dM cM clM dtM d =
      { success := false, data := none,
        errors := P11.raceErrors text vM rM tM dM dtM,
        warnings := P11.raceWarnings cM clM } := by
  have hne : P11.raceErrors text vM rM tM dM dtM ≠ [] := List.ne_nil_of_mem he
  have hcne : (P11.raceErrors text vM rM tM dM dtM).filter
      (fun e => e.field == "venue" || e.field == "raceNumber" || e.field == "distance") ≠ [] :=
    List.ne_nil_of_mem (List.mem_filter.mpr ⟨he, hcrit⟩)
  unfold P11.buildRaceInfoCore
  rw [if_neg hne]
  by_cases hs : cfg.strictMode = true
  · rw [if_pos hs]
  · rw [if_neg hs, if_neg hcne]

/-- C6: when neither the venue pattern nor the distance pattern matches and
`strictMode` is off, part_011's `parseRaceInfo` fails with no `RaceInfo`
record and its error list carries a RACE_INFO error for `venue` and one for
`distance`. -/
theorem c6_missing_venue_distance_fails (cfg : ParserConfig) (now : Int)
    (text : String) (hstrict : cfg.strictMode = false)
    (hv : reFind P11.venuePattern text = none)
    (hd : reFind P11.distancePattern text = none) :
    (P11.parseRaceInfo cfg now text).success = false ∧
    (P11.parseRaceInfo cfg now text).data = none ∧
    (∃ e ∈ (P11.parseRaceInfo cfg now text).errors,
      e.type = "RACE_INFO" ∧ e.field = "venue") ∧
    (∃ e ∈ (P11.parseRaceInfo cfg now text).errors,
      e.type = "RACE_INFO" ∧ e.field = "distance") := by
  have hvm := p11_raceErrors_venue_mem text (reFind P11.raceNumberPattern text)
    (reFind P11.titlePattern text) none (reFind P11.datePattern text)
  have hdm := p11_raceErrors_distance_mem text none (reFind P11.raceNumberPattern text)
    (reFind P11.titlePattern text) (reFind P11.datePattern text)
  have hfail := p11_core_fail cfg text none (reFind P11.raceNumberPattern text)
    (reFind P11.titlePattern text) none (reFind P11.conditionPattern text)
    (reFind P11.classPattern text) (reFind P11.datePattern text)
    (P11.dateOf now (reFind P11.datePattern text)) _ hvm (by rfl)
  unfold P11.parseRaceInfo P11.buildRaceInfo
  rw [hv, hd, hfail]
  exact ⟨rfl, rfl, ⟨_, hvm, rfl, rfl⟩, ⟨_, hdm, rfl, rfl⟩⟩

/-- C6 witness: a block with neither pattern, at the default (non-strict)
config. -/
theorem c6_missing_venue_distance_fails_witness :
    (P11.parseRaceInfo defaultConfig 0 "こんにちは").success = false ∧
    (P11.parseRaceInfo defaultConfig 0 "こんにちは").data = none ∧
    (∃ e ∈ (P11.parseRaceInfo defaultConfig 0 "こんにちは").errors,
      e.type = "RACE_INFO" ∧ e.field = "venue") ∧
    (∃ e ∈ (P11.parseRaceInfo defaultConfig 0 "こんにちは").errors,
      e.type = "RACE_INFO" ∧ e.field = "distance") :=
  c6_missing_venue_distance_fails defaultConfig 0 "こんにちは" rfl
    (by decide) (by decide)

/-- Part_010's error list is the same in every branch of the result. -/
theorem p10_core_errors (cfg : ParserConfig) (text : String) (tM : String)
    (rdM mM rnG : Option Caps) (d : JSDate) :
    (P10.buildRaceInfoCore cfg text tM rdM mM rnG d).errors =
      P10.raceErrors text tM rdM mM := by
  unfold P10.buildRaceInfoCore
  simp only [apply_ite ParseResult.errors]
  simp [ite_self]

/-- Part_010's error fields range over title/raceDetails/meetingInfo only. -/
theorem p10_raceErrors_fields (text : String) (tM : String) (rdM mM : Option Caps) :
    ∀ e ∈ P10.raceErrors text tM rdM mM,
      e.field = "title" ∨ e.field = "raceDetails" ∨ e.field = "meetingInfo" := by
  intro e he
  unfold P10.raceErrors at he
  simp only [List.mem_append] at he
  rcases he with (h | h) | h <;> (split at h <;> simp_all)

/-- Part_010's warning list when the race-number guess is missing. -/
theorem p10_core_warn (cfg : ParserConfig) (text : String) (tM : String)
    (rdM mM : Option Caps) (d : JSDate) :
    (P10.buildRaceInfoCore cfg text tM rdM mM none d).warnings =
      ["レース番号が特定できないため、デフォルト値を使用します。"] := by
  unfold P10.buildRaceInfoCore
  simp only [apply_ite ParseResult.warnings]
  simp [ite_self]

/-- Part_010's returned record has `raceNumber = 11` whenever the race-number
guess is missing. -/
theorem p10_core_raceNumber (cfg : ParserConfig) (text : String) (tM : String)
    (rdM mM : Option Caps) (d : JSDate) (r : RaceInfo)
    (h : (P10.buildRaceInfoCore cfg text tM rdM mM none d).data = some r) :
    r.raceNumber = 11 := by
  unfold P10.buildRaceInfoCore at h
  simp only [apply_ite ParseResult.data] at h
  split_ifs at h <;> simp at h <;> rw [← h]

/-- C5 counterexample: in the part_011 variant a block with no race-number
marker (venue and distance present) produces an Error with
`field = "raceNumber"` — not a Warning — and the call is unsuccessful with no
record: the sentinel-11 default is not applied. -/
theorem c5_counterexample_raceNumber_error_in_part011 :
    (P11.parseRaceInfo defaultConfig 0 "東京 芝2400m 2024年5月26日").success = false ∧
    (P11.parseRaceInfo defaultConfig 0 "東京 芝2400m 2024年5月26日").data = none ∧
    List.map ParseError.field
        (P11.parseRaceInfo defaultConfig 0 "東京 芝2400m 2024年5月26日").errors =
      ["raceNumber", "title"] := by
  exact ⟨by decide, by decide, by decide⟩

/-- C5 amended: when no race-number marker is found, only the part_010
layout-keyed extractor defaults `raceNumber` to the sentinel 11 with a Warning
and never an Error for that field (its error fields are only
title/raceDetails/meetingInfo, so race-number absence never by itself makes the
call unsuccessful); the part_011 delimiter-keyed extractor instead records a
critical Error with `field = "raceNumber"` and fails with no record. -/
theorem c5_amended_raceNumber_default_split (cfg : ParserConfig) (now : Int)
    (text : String)
    (h10 : reFind P10.raceNumberGuessPattern text = none)
    (h11 : reFind P11.raceNumberPattern text = none) :
    (∀ e ∈ (P10.parseRaceInfo cfg now text).errors, e.field ≠ "raceNumber") ∧
    (P10.parseRaceInfo cfg now text).warnings =
      ["レース番号が特定できないため、デフォルト値を使用します。"] ∧
    (∀ d, (P10.parseRaceInfo cfg now text).data = some d → d.raceNumber = 11) ∧
    (∃ e ∈ (P11.parseRaceInfo cfg now text).errors, e.field = "raceNumber") ∧
    (P11.parseRaceInfo cfg now text).success = false ∧
    (P11.parseRaceInfo cfg now text).data = none := by
  have hrn := p11_raceErrors_raceNumber_mem text (reFind P11.venuePattern text)
    (reFind P11.titlePattern text) (reFind P11.distancePattern text)
    (reFind P11.datePattern text)
  have hfail := p11_core_fail cfg text (reFind P11.venuePattern text) none
    (reFind P11.titlePattern text) (reFind P11.distancePattern text)
    (reFind P11.conditionPattern text) (reFind P11.classPattern text)
    (reFind P11.datePattern text) (P11.dateOf now (reFind P11.datePattern text))
    _ hrn (by rfl)
  refine ⟨?_, ?_, ?_, ?_, ?_, ?_⟩
  · intro e he hfield
    unfold P10.parseRaceInfo P10.buildRaceInfo at he
    rw [p10_core_errors] at he
    rcases p10_raceErrors_fields text _ _ _ e he with h | h | h <;>
      rw [hfield] at h <;> simp at h
  · unfold P10.parseRaceInfo P10.buildRaceInfo
    rw [h10]
    exact p10_core_warn cfg text _ _ _ _
  · intro d hd
    unfold P10.parseRaceInfo P10.buildRaceInfo at hd
    rw [h10] at hd
    exact p10_core_raceNumber cfg text _ _ _ _ d hd
  · unfold P11.parseRaceInfo P11.buildRaceInfo
    rw [h11, hfail]
    exact ⟨_, hrn, rfl⟩
  · unfold P11.parseRaceInfo P11.buildRaceInfo
    rw [h11, hfail]
  · unfold P11.parseRaceInfo P11.buildRaceInfo
    rw [h11, hfail]

/-- C5 amended witness: the amended theorem at a concrete header block with no
race-number marker (both variants). -/
theorem c5_amended_witness :
    (P10.parseRaceInfo defaultConfig 0
        "キーンランドカップ\n15:35発走 / 芝1200m (右 B) / 天候:晴 / 馬場:良\n2回 札幌 2日目 サラ系３歳以上 オープン").warnings =
      ["レース番号が特定できないため、デフォルト値を使用します。"] ∧
    (∀ d, (P10.parseRaceInfo defaultConfig 0
        "キーンランドカップ\n15:35発走 / 芝1200m (右 B) / 天候:晴 / 馬場:良\n2回 札幌 2日目 サラ系３歳以上 オープン").data = some d →
      d.raceNumber = 11) ∧
    (∃ e ∈ (P11.parseRaceInfo defaultConfig 0
        "キーンランドカップ\n15:35発走 / 芝1200m (右 B) / 天候:晴 / 馬場:良\n2回 札幌 2日目 サラ系３歳以上 オープン").errors,
      e.field = "raceNumber") ∧
    (P11.parseRaceInfo defaultConfig 0
        "キーンランドカップ\n15:35発走 / 芝1200m (右 B) / 天候:晴 / 馬場:良\n2回 札幌 2日目 サラ系３歳以上 オープン").success = false :=
  ⟨(c5_amended_raceNumber_default_split defaultConfig 0 _ (by decide) (by decide)).2.1,
   (c5_amended_raceNumber_default_split defaultConfig 0 _ (by decide) (by decide)).2.2.1,
   (c5_amended_raceNumber_default_split defaultConfig 0 _ (by decide) (by decide)).2.2.2.1,
   (c5_amended_raceNumber_default_split defaultConfig 0 _ (by decide) (by decide)).2.2.2.2.1⟩

/-- Membership in the first-occurrence deduplication. -/
theorem mem_dedupAux (l : List Int) :
    ∀ (seen : List Int) (x : Int), x ∈ P10.dedupAux seen l ↔ (x ∈ l ∧ x ∉ seen) := by
  induction l with
  | nil => intro seen x; simp [P10.dedupAux]
  | cons k rest ih =>
    intro seen x
    unfold P10.dedupAux
    by_cases hk : k ∈ seen
    · rw [if_pos (List.elem_eq_true_of_mem hk), ih]
      simp only [List.mem_cons]
      constructor
      · rintro ⟨hx, hn⟩
        exact ⟨Or.inr hx, hn⟩
      · rintro ⟨hx | hx, hn⟩
        · exact absurd (hx ▸ hk) hn
        · exact ⟨hx, hn⟩
    · rw [if_neg (fun hc => hk (List.mem_of_elem_eq_true hc))]
      constructor
      · intro hmem
        rcases List.mem_cons.mp hmem with rfl | hmem2
        · exact ⟨List.mem_cons_self _ _, hk⟩
        · obtain ⟨hx, hn⟩ := (ih (k :: seen) x).mp hmem2
          exact ⟨List.mem_cons_of_mem _ hx,
            fun hc => hn (List.mem_cons_of_mem _ hc)⟩
      · rintro ⟨hx, hn⟩
        rcases List.mem_cons.mp hx with rfl | hx2
        · exact List.mem_cons_self _ _
        · by_cases hxk : x = k
          · subst hxk; exact List.mem_cons_self _ _
          · refine List.mem_cons_of_mem _ ((ih (k :: seen) x).mpr ⟨hx2, ?_⟩)
            intro hc
            rcases List.mem_cons.mp hc with h | h
            · exact hxk h
            · exact hn h

/-- First-occurrence deduplication yields a duplicate-free list. -/
theorem nodup_dedupAux (l : List Int) :
    ∀ (seen : List Int), (P10.dedupAux seen l).Nodup := by
  induction l with
  | nil => intro seen; simp [P10.dedupAux]
  | cons k rest ih =>
    intro seen
    unfold P10.dedupAux
    by_cases hk : k ∈ seen
    · rw [if_pos (List.elem_eq_true_of_mem hk)]; exact ih seen
    · rw [if_neg (fun hc => hk (List.mem_of_elem_eq_true hc))]
      refine List.Nodup.cons ?_ (ih (k :: seen))
      intro hmem
      exact ((mem_dedupAux rest (k :: seen) k).mp hmem).2 (List.mem_cons_self k seen)

/-- Membership in `dedupKeys`. -/
theorem mem_dedupKeys (l : List Int) (x : Int) :
    x ∈ P10.dedupKeys l ↔ x ∈ l := by
  unfold P10.dedupKeys
  rw [mem_dedupAux]
  simp

/-- `dedupKeys` is duplicate-free. -/
theorem nodup_dedupKeys (l : List Int) : (P10.dedupKeys l).Nodup :=
  nodup_dedupAux l []

/-- A key outside a map's key list looks up to `undefined`. -/
theorem assocGet_eq_none {α : Type} (m : List (Int × α)) (k : Int)
    (h : k ∉ P10.keysOf m) : P10.assocGet m k = none := by
  induction m with
  | nil => rfl
  | cons p rest ih =>
    unfold P10.assocGet List.find?
    have hk : (p.1 == k) = false := by
      simp only [P10.keysOf, List.map_cons, List.mem_cons, not_or] at h
      simp [beq_iff_eq]
      exact fun hc => h.1 hc.symm
    rw [hk]
    exact ih (fun hc => h (by simp [P10.keysOf] at hc ⊢; exact Or.inr hc))

/-- A successful map lookup returns a stored pair. -/
theorem assocGet_mem {α : Type} (m : List (Int × α)) (k : Int) (v : α)
    (h : P10.assocGet m k = some v) : (k, v) ∈ m := by
  unfold P10.assocGet at h
  obtain ⟨p, hp, hv⟩ : ∃ p, m.find? (fun p => p.1 == k) = some p ∧ p.2 = v := by
    cases hf : m.find? (fun p => p.1 == k) with
    | none => rw [hf] at h; simp at h
    | some p => rw [hf] at h; simp at h; exact ⟨p, rfl, h⟩
  have hmem := List.mem_of_find?_eq_some hp
  have hpe := List.find?_some hp
  simp only [beq_iff_eq] at hpe
  have hpv : p = (k, v) := by
    cases p with
    | mk a b =>
      simp only at hpe hv
      rw [hpe, hv]
  rw [hpv] at hmem
  exact hmem

/-- The record built for `h` carries horse number `h`. -/
theorem mkOddsRecord_horseNumber (cfg : ParserConfig) (W : List (Int × ℚ))
    (Pm : List (Int × ℚ × ℚ)) (h : Int) :
    (P10.mkOddsRecord cfg W Pm h).horseNumber = h := rfl

/-- A horse absent from the place map gets the `winOdds/3`–`winOdds/2`
approximation. -/
theorem mkOddsRecord_win_only (cfg : ParserConfig) (W : List (Int × ℚ))
    (Pm : List (Int × ℚ × ℚ)) (h : Int) (hp : h ∉ P10.keysOf Pm) :
    (P10.mkOddsRecord cfg W Pm h).placeOddsMin = (P10.mkOddsRecord cfg W Pm h).winOdds / 3 ∧
    (P10.mkOddsRecord cfg W Pm h).placeOddsMax = (P10.mkOddsRecord cfg W Pm h).winOdds / 2 := by
  have hg := assocGet_eq_none Pm h hp
  constructor <;> simp [P10.mkOddsRecord, hg, jsOrQ]

/-- A horse absent from the win map gets `defaultOdds`. -/
theorem mkOddsRecord_place_only (cfg : ParserConfig) (W : List (Int × ℚ))
    (Pm : List (Int × ℚ × ℚ)) (h : Int) (hw : h ∉ P10.keysOf W) :
    (P10.mkOddsRecord cfg W Pm h).winOdds = cfg.defaultOdds := by
  simp [P10.mkOddsRecord, assocGet_eq_none W h hw, jsOrQ]

/-- C4: the part_010 odds extractor returns one record per horse number in the
union of the win and place maps, sorted ascending and duplicate-free; a horse
missing from the place map gets `placeOddsMin = winOdds/3` and
`placeOddsMax = winOdds/2`, and a horse missing from the win map gets
`winOdds = defaultOdds`. -/
theorem c4_odds_union_sorted_fallback (cfg : ParserConfig) (text : String) :
    (P10.parseOdds cfg text).success = true ∧
    (P10.parseOdds cfg text).data =
      some (P10.sortByHorseNumber
        ((P10.dedupKeys (P10.keysOf (P10.oddsMapsOf text).1 ++
            P10.keysOf (P10.oddsMapsOf text).2)).map
          (P10.mkOddsRecord cfg (P10.oddsMapsOf text).1 (P10.oddsMapsOf text).2))) ∧
    List.Sorted (· ≤ ·)
      (List.map OddsData.horseNumber ((P10.parseOdds cfg text).data.getD [])) ∧
    (List.map OddsData.horseNumber ((P10.parseOdds cfg text).data.getD [])).Nodup ∧
    (∀ h : Int,
      h ∈ List.map OddsData.horseNumber ((P10.parseOdds cfg text).data.getD []) ↔
        (h ∈ P10.keysOf (P10.oddsMapsOf text).1 ∨ h ∈ P10.keysOf (P10.oddsMapsOf text).2)) ∧
    (∀ rec ∈ (P10.parseOdds cfg text).data.getD [],
      (rec.horseNumber ∉ P10.keysOf (P10.oddsMapsOf text).2 →
        rec.placeOddsMin = rec.winOdds / 3 ∧ rec.placeOddsMax = rec.winOdds / 2) ∧
      (rec.horseNumber ∉ P10.keysOf (P10.oddsMapsOf text).1 →
        rec.winOdds = cfg.defaultOdds)) := by
  have hdata : (P10.parseOdds cfg text).data =
      some (P10.sortByHorseNumber
        ((P10.dedupKeys (P10.keysOf (P10.oddsMapsOf text).1 ++
            P10.keysOf (P10.oddsMapsOf text).2)).map
          (P10.mkOddsRecord cfg (P10.oddsMapsOf text).1 (P10.oddsMapsOf text).2))) := rfl
  have hperm := List.perm_insertionSort (fun a b : OddsData => a.horseNumber ≤ b.horseNumber)
    ((P10.dedupKeys (P10.keysOf (P10.oddsMapsOf text).1 ++
        P10.keysOf (P10.oddsMapsOf text).2)).map
      (P10.mkOddsRecord cfg (P10.oddsMapsOf text).1 (P10.oddsMapsOf text).2))
  have hsorted := List.sorted_insertionSort (fun a b : OddsData => a.horseNumber ≤ b.horseNumber)
    ((P10.dedupKeys (P10.keysOf (P10.oddsMapsOf text).1 ++
        P10.keysOf (P10.oddsMapsOf text).2)).map
      (P10.mkOddsRecord cfg (P10.oddsMapsOf text).1 (P10.oddsMapsOf text).2))
  have hfun : (OddsData.horseNumber ∘
      P10.mkOddsRecord cfg (P10.oddsMapsOf text).1 (P10.oddsMapsOf text).2) = id :=
    funext (fun h => rfl)
  have hmapmk : (((P10.dedupKeys (P10.keysOf (P10.oddsMapsOf text).1 ++
      P10.keysOf (P10.oddsMapsOf text).2)).map
        (P10.mkOddsRecord cfg (P10.oddsMapsOf text).1 (P10.oddsMapsOf text).2)).map
          OddsData.horseNumber) =
      P10.dedupKeys (P10.keysOf (P10.oddsMapsOf text).1 ++
        P10.keysOf (P10.oddsMapsOf text).2) := by
    rw [List.map_map, hfun, List.map_id]
  refine ⟨rfl, hdata, ?_, ?_, ?_, ?_⟩
  · rw [hdata]
    simp only [Option.getD_some]
    exact List.pairwise_map.mpr hsorted
  · rw [hdata]
    simp only [Option.getD_some]
    refine ((List.Perm.map OddsData.horseNumber hperm).nodup_iff).mpr ?_
    rw [hmapmk]
    exact nodup_dedupKeys _
  · intro h
    rw [hdata]
    simp only [Option.getD_some]
    have h1 := @List.Perm.mem_iff _ h _ _ (List.Perm.map OddsData.horseNumber hperm)
    rw [hmapmk, mem_dedupKeys, List.mem_append] at h1
    exact h1
  · intro rec hrec
    rw [hdata] at hrec
    simp only [Option.getD_some] at hrec
    obtain ⟨h, hh, hmk⟩ := List.mem_map.mp (List.Perm.mem_iff hperm |>.mp hrec)
    constructor
    · intro hp
      rw [← hmk] at hp ⊢
      simp only [mkOddsRecord_horseNumber] at hp
      exact mkOddsRecord_win_only cfg _ _ h hp
    · intro hw
      rw [← hmk] at hw ⊢
      simp only [mkOddsRecord_horseNumber] at hw
      exact mkOddsRecord_place_only cfg _ _ h hw

/-- C4 witness: win odds for horses 1–2 and place odds only for horse 1 yield
records `[1, 2]` in order, and the union/approximation facts of the theorem
instantiate at the win-only record of horse 2. -/
theorem c4_odds_union_sorted_fallback_witness :
    List.map OddsData.horseNumber
      ((P10.parseOdds defaultConfig
        "単勝\n1\t1\nウマイチ\t2.0\n2\t2\nウマニ\t3.0\n複勝\n1\t1\nウマイチ\t1.1 - 1.4").data.getD [])
      = [1, 2] ∧
    ((P10.mkOddsRecord defaultConfig
        (P10.oddsMapsOf "単勝\n1\t1\nウマイチ\t2.0\n2\t2\nウマニ\t3.0\n複勝\n1\t1\nウマイチ\t1.1 - 1.4").1
        (P10.oddsMapsOf "単勝\n1\t1\nウマイチ\t2.0\n2\t2\nウマニ\t3.0\n複勝\n1\t1\nウマイチ\t1.1 - 1.4").2
        2).placeOddsMin =
      (P10.mkOddsRecord defaultConfig
        (P10.oddsMapsOf "単勝\n1\t1\nウマイチ\t2.0\n2\t2\nウマニ\t3.0\n複勝\n1\t1\nウマイチ\t1.1 - 1.4").1
        (P10.oddsMapsOf "単勝\n1\t1\nウマイチ\t2.0\n2\t2\nウマニ\t3.0\n複勝\n1\t1\nウマイチ\t1.1 - 1.4").2
        2).winOdds / 3) :=
  ⟨by with_unfolding_all decide,
   (((c4_odds_union_sorted_fallback defaultConfig
      "単勝\n1\t1\nウマイチ\t2.0\n2\t2\nウマニ\t3.0\n複勝\n1\t1\nウマイチ\t1.1 - 1.4").2.2.2.2.2
      (P10.mkOddsRecord defaultConfig
        (P10.oddsMapsOf "単勝\n1\t1\nウマイチ\t2.0\n2\t2\nウマニ\t3.0\n複勝\n1\t1\nウマイチ\t1.1 - 1.4").1
        (P10.oddsMapsOf "単勝\n1\t1\nウマイチ\t2.0\n2\t2\nウマニ\t3.0\n複勝\n1\t1\nウマイチ\t1.1 - 1.4").2
        2)
      (by with_unfolding_all decide)).1 (by with_unfolding_all decide)).1⟩

/-- Every record of part_010's odds extractor is built by `mkOddsRecord` from
the two maps. -/
theorem p10_parseOdds_mem (cfg : ParserConfig) (text : String) (rec : OddsData)
    (hrec : rec ∈ (P10.parseOdds cfg text).data.getD []) :
    ∃ h : Int,
      rec = P10.mkOddsRecord cfg (P10.oddsMapsOf text).1 (P10.oddsMapsOf text).2 h := by
  have hdata : (P10.parseOdds cfg text).data =
      some (P10.sortByHorseNumber
        ((P10.dedupKeys (P10.keysOf (P10.oddsMapsOf text).1 ++
            P10.keysOf (P10.oddsMapsOf text).2)).map
          (P10.mkOddsRecord cfg (P10.oddsMapsOf text).1 (P10.oddsMapsOf text).2))) := rfl
  rw [hdata] at hrec
  simp only [Option.getD_some] at hrec
  have hperm := List.perm_insertionSort (fun a b : OddsData => a.horseNumber ≤ b.horseNumber)
    ((P10.dedupKeys (P10.keysOf (P10.oddsMapsOf text).1 ++
        P10.keysOf (P10.oddsMapsOf text).2)).map
      (P10.mkOddsRecord cfg (P10.oddsMapsOf text).1 (P10.oddsMapsOf text).2))
  obtain ⟨h, _, hmk⟩ := List.mem_map.mp (hperm.mem_iff.mp hrec)
  exact ⟨h, hmk.symm⟩

/-- A lookup miss means the key is outside the key list. -/
theorem assocGet_none_not_mem {α : Type} (m : List (Int × α)) (k : Int) :
    P10.assocGet m k = none → k ∉ P10.keysOf m := by
  induction m with
  | nil => intro h hk; simp [P10.keysOf] at hk
  | cons p rest ih =>
    intro h hk
    rcases p with ⟨a, v⟩
    unfold P10.assocGet List.find? at h
    simp only [P10.keysOf, List.map_cons, List.mem_cons] at hk
    by_cases hb : a = k
    · subst hb
      simp at h
    · have hb2 : (a == k) = false := beq_eq_false_iff_ne.mpr hb
      rw [hb2] at h
      rcases hk with h1 | h1
      · exact hb h1.symm
      · exact ih h h1

/-- `parseFloatJS` never returns a negative value. -/
theorem parseFloatJS_nonneg (s : String) : 0 ≤ parseFloatJS s := by
  unfold parseFloatJS
  simp only []
  split <;> positivity

set_option maxRecDepth 4000 in
/-- C8 counterexample: an odds block whose place pair is `5.0 - 1.3` yields a
record with `placeOddsMax < placeOddsMin` (and `placeOddsMin` can likewise be
below 1) — the extractor copies the text values without enforcing the bound. -/
theorem c8_counterexample_inverted_place_range :
    (P10.parseOdds defaultConfig "複勝\n1\t1\nウマ\t5.0 - 1.3").data =
      some [{ horseNumber := 1, winOdds := 999 / 10, placeOddsMin := 5,
              placeOddsMax := 13 / 10 }] ∧
    ((13 : ℚ) / 10 < 5) := by
  exact ⟨by with_unfolding_all decide, by norm_num⟩

/-- C8 amended: the extractor enforces no bounds of its own; the invariant
holds exactly when the text-supplied values satisfy it.  If every parsed win
value is ≥ 1, every parsed place pair satisfies `1 ≤ min ≤ max`, and
`defaultOdds ≥ 1`, then every part_010 record satisfies `winOdds ≥ 1`,
`0 < placeOddsMin ≤ placeOddsMax`, with `placeOddsMin ≥ 1` whenever the place
pair came directly from the text; and a part_011 win-only line always gets the
order-respecting `winOdds/3 ≤ winOdds/2` approximation. -/
theorem c8_amended_bounds_conditional (cfg : ParserConfig) (text : String)
    (hdef : 1 ≤ cfg.defaultOdds)
    (hwin : ∀ p ∈ (P10.oddsMapsOf text).1, 1 ≤ p.2)
    (hplace : ∀ p ∈ (P10.oddsMapsOf text).2, 1 ≤ p.2.1 ∧ p.2.1 ≤ p.2.2) :
    (∀ rec ∈ (P10.parseOdds cfg text).data.getD [],
      1 ≤ rec.winOdds ∧ 0 < rec.placeOddsMin ∧ rec.placeOddsMin ≤ rec.placeOddsMax ∧
      (rec.horseNumber ∈ P10.keysOf (P10.oddsMapsOf text).2 → 1 ≤ rec.placeOddsMin)) ∧
    (∀ (line : String) (rec : OddsData),
      reMatchPrefix P11.oddsFullPattern line = none →
      P11.parseOddsLine line = Except.ok rec →
      rec.placeOddsMin = rec.winOdds / 3 ∧ rec.placeOddsMax = rec.winOdds / 2 ∧
        rec.placeOddsMin ≤ rec.placeOddsMax) := by
  constructor
  · intro rec hrec
    obtain ⟨h, hmk⟩ := p10_parseOdds_mem cfg text rec hrec
    subst hmk
    have hwo : 1 ≤ (P10.mkOddsRecord cfg (P10.oddsMapsOf text).1 (P10.oddsMapsOf text).2 h).winOdds := by
      cases hw : P10.assocGet (P10.oddsMapsOf text).1 h with
      | none => simp [P10.mkOddsRecord, hw, jsOrQ]; exact hdef
      | some v =>
        have hv1 := hwin (h, v) (assocGet_mem _ h v hw)
        have hv0 : v ≠ 0 := by intro h0; rw [h0] at hv1; norm_num at hv1
        simp [P10.mkOddsRecord, hw, jsOrQ, hv0]
        exact hv1
    cases hp : P10.assocGet (P10.oddsMapsOf text).2 h with
    | none =>
      refine ⟨hwo, ?_, ?_, ?_⟩
      · simp [P10.mkOddsRecord, hp, jsOrQ] at hwo ⊢
        linarith
      · simp [P10.mkOddsRecord, hp, jsOrQ] at hwo ⊢
        linarith
      · intro hk
        simp only [mkOddsRecord_horseNumber] at hk
        exact absurd hk (assocGet_none_not_mem _ h hp)
    | some pr =>
      have hpr := hplace (h, pr) (assocGet_mem _ h pr hp)
      have hmn0 : pr.1 ≠ 0 := by
        intro h0; rw [h0] at hpr; norm_num at hpr
      have hmx0 : pr.2 ≠ 0 := by
        intro h0
        have := hpr.1.trans hpr.2
        rw [h0] at this; norm_num at this
      refine ⟨hwo, ?_, ?_, fun _ => ?_⟩
      · simp [P10.mkOddsRecord, hp, jsOrQ, hmn0]
        linarith [hpr.1]
      · simp [P10.mkOddsRecord, hp, jsOrQ, hmn0, hmx0]
        exact hpr.2
      · simp [P10.mkOddsRecord, hp, jsOrQ, hmn0]
        exact hpr.1
  · intro line rec hfull hok
    unfold P11.parseOddsLine at hok
    rw [hfull] at hok
    cases hsimple : reMatchPrefix P11.oddsSimplePattern line with
    | none => rw [hsimple] at hok; simp at hok
    | some m =>
      rw [hsimple] at hok
      simp only [Except.ok.injEq] at hok
      have hw := parseFloatJS_nonneg (capGet m 2)
      rw [← hok]
      refine ⟨rfl, rfl, ?_⟩
      simp only
      linarith

/-- C8 amended witness: the amended theorem at a concrete block whose text
values satisfy the bounds, instantiated at the record of horse 1. -/
theorem c8_amended_witness :
    1 ≤ (P10.mkOddsRecord defaultConfig
        (P10.oddsMapsOf "単勝\n1\t1\nウマイチ\t2.0\n複勝\n1\t1\nウマイチ\t1.1 - 1.4").1
        (P10.oddsMapsOf "単勝\n1\t1\nウマイチ\t2.0\n複勝\n1\t1\nウマイチ\t1.1 - 1.4").2
        1).winOdds ∧
    (P10.mkOddsRecord defaultConfig
        (P10.oddsMapsOf "単勝\n1\t1\nウマイチ\t2.0\n複勝\n1\t1\nウマイチ\t1.1 - 1.4").1
        (P10.oddsMapsOf "単勝\n1\t1\nウマイチ\t2.0\n複勝\n1\t1\nウマイチ\t1.1 - 1.4").2
        1).placeOddsMin ≤
      (P10.mkOddsRecord defaultConfig
        (P10.oddsMapsOf "単勝\n1\t1\nウマイチ\t2.0\n複勝\n1\t1\nウマイチ\t1.1 - 1.4").1
        (P10.oddsMapsOf "単勝\n1\t1\nウマイチ\t2.0\n複勝\n1\t1\nウマイチ\t1.1 - 1.4").2
        1).placeOddsMax ∧
    1 ≤ (P10.mkOddsRecord defaultConfig
        (P10.oddsMapsOf "単勝\n1\t1\nウマイチ\t2.0\n複勝\n1\t1\nウマイチ\t1.1 - 1.4").1
        (P10.oddsMapsOf "単勝\n1\t1\nウマイチ\t2.0\n複勝\n1\t1\nウマイチ\t1.1 - 1.4").2
        1).placeOddsMin := by
  have app := (c8_amended_bounds_conditional defaultConfig
      "単勝\n1\t1\nウマイチ\t2.0\n複勝\n1\t1\nウマイチ\t1.1 - 1.4"
      (by with_unfolding_all decide) (by with_unfolding_all decide)
      (by with_unfolding_all decide)).1
    (P10.mkOddsRecord defaultConfig
      (P10.oddsMapsOf "単勝\n1\t1\nウマイチ\t2.0\n複勝\n1\t1\nウマイチ\t1.1 - 1.4").1
      (P10.oddsMapsOf "単勝\n1\t1\nウマイチ\t2.0\n複勝\n1\t1\nウマイチ\t1.1 - 1.4").2
      1)
    (by with_unfolding_all decide)
  exact ⟨app.1, app.2.2.1, app.2.2.2 (by with_unfolding_all decide)⟩

/-- C10: any fragment containing a line that matches the popularity-odds
pattern or the body-weight pattern makes `parseHorseBlock` raise (the
assignments to the commented-out `odds`/`bodyWeight` declarations are
ReferenceErrors), so the fragment always fails: the roster-loop step adds no
record, and turns it into exactly one extra Warning when
`skipInvalidHorses = true` or one extra Error when it is `false`. -/
theorem c10_odds_weight_line_always_fails (block : String) (cfg : ParserConfig)
    (st : HState) (i : Nat)
    (hmatch : (splitLines block).any
      (fun l => reTest P10.oddsPattern l || reTest P10.weightPattern l) = true) :
    (∃ e, P10.parseHorseBlock block (i + 1) = Except.error e) ∧
    (horseStep cfg.skipInvalidHorses P10.rosterFrag P10.rosterMkErr i block st).horses =
      st.horses ∧
    (cfg.skipInvalidHorses = true →
      (horseStep cfg.skipInvalidHorses P10.rosterFrag P10.rosterMkErr i block st).warnings.length =
        st.warnings.length + 1 ∧
      (horseStep cfg.skipInvalidHorses P10.rosterFrag P10.rosterMkErr i block st).errors =
        st.errors) ∧
    (cfg.skipInvalidHorses = false →
      (horseStep cfg.skipInvalidHorses P10.rosterFrag P10.rosterMkErr i block st).errors.length =
        st.errors.length + 1 ∧
      (horseStep cfg.skipInvalidHorses P10.rosterFrag P10.rosterMkErr i block st).warnings =
        st.warnings) := by
  have hcases : (splitLines block).any (fun l => reTest P10.oddsPattern l) = true ∨
      (splitLines block).any (fun l => reTest P10.weightPattern l) = true := by
    rw [List.any_eq_true] at hmatch
    obtain ⟨l, hl, hpq⟩ := hmatch
    have hpq2 : reTest P10.oddsPattern l = true ∨ reTest P10.weightPattern l = true := by
      simpa using hpq
    rcases hpq2 with h | h
    · exact Or.inl (List.any_eq_true.mpr ⟨l, hl, h⟩)
    · exact Or.inr (List.any_eq_true.mpr ⟨l, hl, h⟩)
  have herr : ∃ e, P10.parseHorseBlock block (i + 1) = Except.error e := by
    cases hpb : P10.parseHorseBlock block (i + 1) with
    | error e => exact ⟨e, rfl⟩
    | ok hrec =>
      exfalso
      unfold P10.parseHorseBlock at hpb
      dsimp only [] at hpb
      iterate 5 (all_goals (try split at hpb))
      all_goals (rcases hcases with hc | hc <;> simp_all)
  obtain ⟨e, he⟩ := herr
  have hstep : horseStep cfg.skipInvalidHorses P10.rosterFrag P10.rosterMkErr i block st =
      (let pe := P10.rosterMkErr i block e
       if cfg.skipInvalidHorses then { st with warnings := st.warnings ++ [pe.message] }
       else { st with errors := st.errors ++ [pe] }) := by
    unfold horseStep P10.rosterFrag
    rw [he]
  refine ⟨⟨e, he⟩, ?_, ?_, ?_⟩
  · rw [hstep]
    by_cases hs : cfg.skipInvalidHorses = true <;> simp [hs]
  · intro hs
    rw [hstep]
    simp [hs]
  · intro hs
    rw [hstep]
    simp [hs]

/-- C10 witness: the theorem at a concrete fragment whose only extra line is a
body-weight notation `500kg(+2)`, at the default config (skip = true). -/
theorem c10_odds_weight_line_always_fails_witness :
    P10.parseHorseBlock "1\t1\nマ\nウマノナマエ\n500kg(+2)" 1 =
      Except.error "bodyWeight is not defined" ∧
    (horseStep defaultConfig.skipInvalidHorses P10.rosterFrag P10.rosterMkErr 0
      "1\t1\nマ\nウマノナマエ\n500kg(+2)" { horses := [], errors := [], warnings := [] }).horses = [] ∧
    (horseStep defaultConfig.skipInvalidHorses P10.rosterFrag P10.rosterMkErr 0
      "1\t1\nマ\nウマノナマエ\n500kg(+2)"
      { horses := [], errors := [], warnings := [] }).warnings.length = 1 := by
  have h := c10_odds_weight_line_always_fails "1\t1\nマ\nウマノナマエ\n500kg(+2)"
    defaultConfig { horses := [], errors := [], warnings := [] } 0 (by decide)
  exact ⟨by decide, h.2.1, (h.2.2.1 rfl).1⟩
